import Mathlib

/-!
# Verification development for the sampled Chromium sources

Two components are embedded:

* `browser_sync` : `chrome/browser/sync/engine/net/server_connection_manager.cc`
  (connection status, reachability probe, listener notification);
* `net` : the proxy resolution service declared in `net/proxy/proxy_service.h`.

Stateful C++ code is embedded as explicit state passing.  Calls to listeners
are recorded in a log carried by the state, so that "how many notifications"
is a statement about the length of that log.
-/

namespace browser_sync

/-! ## Data model of `server_connection_manager.cc` -/

/-- The enumeration switched over by `HttpResponse::GetServerConnectionCodeString`
(lines 46-54): one constructor per `ENUM_CASE`. -/
inductive ServerConnectionCode where
  | NONE
  | CONNECTION_UNAVAILABLE
  | IO_ERROR
  | SYNC_SERVER_ERROR
  | SYNC_AUTH_ERROR
  | SERVER_CONNECTION_OK
  | RETRY
  deriving DecidableEq, Repr

/-- The fields of `struct HttpResponse` initialised by its constructor
(lines 36-40). -/
structure HttpResponse where
  response_code : Int
  content_length : Int
  payload_length : Int
  server_status : ServerConnectionCode
  deriving DecidableEq, Repr

/-- The argument of `OnServerConnectionEvent` built in `NotifyStatusChanged`
(line 173): the manager's status and reachability at the time of the call. -/
structure ServerConnectionEvent where
  connection_code : ServerConnectionCode
  server_reachable : Bool
  deriving DecidableEq, Repr

/-- The state of a `ServerConnectionManager` that the embedded functions read
or write.  `notified` is the log of `NotifyStatusChanged` calls (each call
broadcasts its event to every registered listener); `posts_made` counts the
`MakePost()` calls so far. -/
structure ServerConnectionManager where
  error_count_ : Int
  server_status_ : ServerConnectionCode
  server_reachable_ : Bool
  notified : List ServerConnectionEvent
  posts_made : Nat
  deriving DecidableEq, Repr

/-- Constants and helpers that the file uses but that are declared in headers
outside the sampled sources.  `string_max_size` is the largest size that
`resize` gives a string: `std::string::max_size()`, or less where memory ends
earlier; beyond it `resize` throws. -/
structure Constants where
  kMaxConnectionErrorsBeforeReset : Int
  RC_REQUEST_OK : Int
  kUnsetResponseCode : Int
  kUnsetContentLength : Int
  kUnsetPayloadLength : Int
  MakeSyncServerPath : String → String → String
  string_max_size : Nat

/-- A `Post` object as produced by the virtual `MakePost()`.  `Init` is pure
virtual in the class: given path, auth token, payload and the response it
returns its `bool` result, the response as it leaves it, and the contents of
the member `buffer_` afterwards. -/
structure Post where
  Init : String → String → String → HttpResponse → Bool × HttpResponse × String

/-- Ways in which the embedded code stops without returning: the `CHECK` of
`ReadResponse` (line 126) fails; `resize` (line 241) is asked for more than a
string can hold and throws (`std::length_error` above `max_size()`; a negative
content length is turned into such a size by
`static_cast<string::size_type>`); `atoi`
(line 250) is given digits whose value no `int` can hold, where its behaviour
is undefined; or the model ran out of `fuel` for the nesting of
`IncrementErrorCount`. -/
inductive Fault where
  | check_failed
  | length_error
  | atoi_out_of_range
  | out_of_fuel
  deriving DecidableEq, Repr

/-- Conversion to a 32-bit `int` (`static_cast<int>` and the implicit
`size_t` to `int` conversion), two's complement: the value is reduced modulo
2^32 and the upper half of the range is read as negative. -/
def toInt32 (x : Int) : Int :=
  let r := (x % 4294967296).toNat
  if r < 2147483648 then (r : Int) else (r : Int) - 4294967296

/-- Conversion of a signed integer to the unsigned 64-bit `string::size_type`:
the value is reduced modulo 2^64. -/
def toSizeT (x : Int) : Nat :=
  (x % 18446744073709551616).toNat

/-- The constructor `HttpResponse::HttpResponse()` (lines 36-40). -/
def HttpResponse.mk0 (c : Constants) : HttpResponse :=
  { response_code := c.kUnsetResponseCode
    content_length := c.kUnsetContentLength
    payload_length := c.kUnsetPayloadLength
    server_status := ServerConnectionCode.NONE }

/-- The constructor `ServerConnectionManager::ServerConnectionManager`
(lines 150-164), restricted to the fields of the model. -/
def ServerConnectionManager.init : ServerConnectionManager :=
  { error_count_ := 0
    server_status_ := ServerConnectionCode.NONE
    server_reachable_ := false
    notified := []
    posts_made := 0 }

/-- The function `ServerConnectionManager::NotifyStatusChanged` (lines 169-174):
one call, recorded with the event it sends. -/
def NotifyStatusChanged (m : ServerConnectionManager) : ServerConnectionManager :=
  { m with notified := m.notified ++ [⟨m.server_status_, m.server_reachable_⟩] }

/-- The member of `ScopedServerStatusWatcher` that is a value: the
reachability flag captured at construction.  `conn_mgr_` and `response_` are
pointers; the objects they point to are passed to `destroy` as they are at
destruction time. -/
structure ScopedServerStatusWatcher where
  server_reachable_ : Bool
  deriving DecidableEq, Repr

/-- The constructor of `ScopedServerStatusWatcher` (lines 131-137): captures
`conn_mgr->server_reachable_` and writes `conn_mgr->server_status_` into the
response. -/
def ScopedServerStatusWatcher.create (conn_mgr : ServerConnectionManager)
    (response : HttpResponse) : ScopedServerStatusWatcher × HttpResponse :=
  ({ server_reachable_ := conn_mgr.server_reachable_ },
   { response with server_status := conn_mgr.server_status_ })

/-- The destructor of `ScopedServerStatusWatcher` (lines 139-148). -/
def ScopedServerStatusWatcher.destroy (w : ScopedServerStatusWatcher)
    (response : HttpResponse) (conn_mgr : ServerConnectionManager) :
    ServerConnectionManager :=
  if conn_mgr.server_status_ ≠ response.server_status then
    NotifyStatusChanged { conn_mgr with server_status_ := response.server_status }
  else if w.server_reachable_ ≠ conn_mgr.server_reachable_ then
    NotifyStatusChanged conn_mgr
  else
    conn_mgr

/-- The number of `NotifyStatusChanged` calls made between state `before` and
state `after` of the same manager. -/
def notificationsBetween (before after : ServerConnectionManager) : Nat :=
  after.notified.length - before.notified.length

/-- The count the specification compares the notifications with: how many of
the two attributes (connection code, reachability) changed during the scope of
a watcher. -/
def changedAttributes (w : ScopedServerStatusWatcher) (response : HttpResponse)
    (conn_mgr : ServerConnectionManager) : Nat :=
  (if conn_mgr.server_status_ ≠ response.server_status then 1 else 0) +
  (if w.server_reachable_ ≠ conn_mgr.server_reachable_ then 1 else 0)

/-! ## Posts, the time check and the error counter -/

/-- The function `ServerConnectionManager::Post::ReadResponse` (lines 123-129)
on a post whose `buffer_` is `buffer_` (one `Char` per byte): the `CHECK`
aborts, otherwise the buffer is copied out and its length returned. -/
def ReadResponse (buffer_ : String) (length : Int) : Except Fault (Int × String) :=
  let bytes_read := toInt32 buffer_.length
  if length ≤ bytes_read then Except.ok (bytes_read, buffer_)
  else Except.error Fault.check_failed

/-- The function `ServerConnectionManager::Post::ReadDownloadResponse`
(lines 82-95): result, response and output buffer. -/
def ReadDownloadResponse (buffer_ : String) (response : HttpResponse) :
    Except Fault (Bool × HttpResponse × String) :=
  match ReadResponse buffer_ (toInt32 response.content_length) with
  | Except.error e => Except.error e
  | Except.ok (bytes_read, out) =>
    if bytes_read ≠ response.content_length then
      Except.ok (false, { response with server_status := ServerConnectionCode.IO_ERROR }, out)
    else
      Except.ok (true, response, out)

/-- The test `string::npos != s.find_first_not_of("0123456789")` negated: every
character of `s` is a decimal digit. -/
def onlyDigits (s : String) : Bool :=
  s.data.all fun ch => ch.isDigit

/-- The number that a string of decimal digits denotes (0 for the empty
string). -/
def decimalValue (s : String) : Int :=
  s.data.foldl (fun acc ch => acc * 10 + ((ch.toNat : Int) - 48)) 0

/-- The call `atoi(s.c_str())` of line 250 on a string of decimal digits, whose
`int` result is stored in the `int32` that `out_time` points to: the number the
digits denote when an `int` can hold it.  For a larger number the behaviour of
`atoi` is undefined; the model stops there, so that nothing is said about what
such a call leaves in `out_time`. -/
def atoi (s : String) : Except Fault Int :=
  if decimalValue s ≤ 2147483647 then Except.ok (decimalValue s)
  else Except.error Fault.atoi_out_of_range

/-- The `for` loop of `CheckTime` (lines 225-253) from attempt `3 - n` on:
`n` attempts are left.  Returns the time written to `out_time` when an attempt
succeeds (`none` when all fail), the response and the manager (only its post
counter moves).  `time_response.resize` (line 241) throws when the content
length, converted to `size_type`, is above the largest size of a string. -/
def CheckTimeLoop (c : Constants) (mk : Nat → Post) :
    Nat → HttpResponse → ServerConnectionManager →
      Except Fault (Option Int × HttpResponse × ServerConnectionManager)
  | 0, response, m => Except.ok (none, response, m)
  | n + 1, response, m =>
    let post := mk m.posts_made
    let m1 := { m with posts_made := m.posts_made + 1 }
    let get_time_path := c.MakeSyncServerPath "/time" "command=get_time"
    match post.Init get_time_path "" "" response with
    | (false, response1, _) => CheckTimeLoop c mk n response1 m1
    | (true, response1, buffer_) =>
      if c.string_max_size < toSizeT response1.content_length then
        Except.error Fault.length_error
      else
        match ReadDownloadResponse buffer_ response1 with
        | Except.error e => Except.error e
        | Except.ok (ok, response2, time_response) =>
          if !ok || !onlyDigits time_response then CheckTimeLoop c mk n response2 m1
          else
            match atoi time_response with
            | Except.error e => Except.error e
            | Except.ok out_time => Except.ok (some out_time, response2, m1)

/-- The body of `ServerConnectionManager::CheckTime` (lines 216-256), with the
call of `IncrementErrorCount` on line 254 passed as `inc`.  Returns the `bool`
result, the value written to `out_time` if any, and the manager after the
watcher has been destroyed. -/
def CheckTimeWith (c : Constants) (mk : Nat → Post)
    (inc : ServerConnectionManager → Except Fault (Bool × ServerConnectionManager))
    (m : ServerConnectionManager) :
    Except Fault (Bool × Option Int × ServerConnectionManager) :=
  let (watcher, response) := ScopedServerStatusWatcher.create m (HttpResponse.mk0 c)
  match CheckTimeLoop c mk 3 response m with
  | Except.error e => Except.error e
  | Except.ok (some t, response1, m1) =>
    Except.ok (true, some t, watcher.destroy response1 m1)
  | Except.ok (none, response1, m1) =>
    match inc m1 with
    | Except.error e => Except.error e
    | Except.ok (_, m2) => Except.ok (false, none, watcher.destroy response1 m2)

/-- The function `ServerConnectionManager::IncrementErrorCount` (lines 279-296).
It calls `IsServerReachable`, which calls `CheckTime`, which calls
`IncrementErrorCount` again; `fuel` bounds the depth of that nesting. -/
def IncrementErrorCount (c : Constants) (mk : Nat → Post) :
    Nat → ServerConnectionManager → Except Fault (Bool × ServerConnectionManager)
  | 0, _ => Except.error Fault.out_of_fuel
  | fuel + 1, m =>
    let m1 := { m with error_count_ := toInt32 (m.error_count_ + 1) }
    if m1.error_count_ > c.kMaxConnectionErrorsBeforeReset then
      let m2 := { m1 with error_count_ := 0 }
      match CheckTimeWith c mk (IncrementErrorCount c mk fuel) m2 with
      | Except.error e => Except.error e
      | Except.ok (_, _, m3) => Except.ok (false, m3)
    else
      Except.ok (true, m1)

/-- Example constants: a limit of 3 errors, HTTP 200 as `RC_REQUEST_OK`, -1 for
the unset fields, a path builder that joins path and query with `?`, and
strings of up to 2^30 - 1 bytes. -/
def exampleConstants : Constants :=
  { kMaxConnectionErrorsBeforeReset := 3
    RC_REQUEST_OK := 200
    kUnsetResponseCode := -1
    kUnsetContentLength := -1
    kUnsetPayloadLength := -1
    MakeSyncServerPath := fun path query => path ++ "?" ++ query
    string_max_size := 1073741823 }

/-- Example post whose `Init` fails (no connection). -/
def unreachablePost : Post :=
  { Init := fun _ _ _ response =>
      (false, { response with server_status := ServerConnectionCode.CONNECTION_UNAVAILABLE }, "") }

/-- Example post whose `Init` succeeds with a ten digit time as body. -/
def timePost : Post :=
  { Init := fun _ _ _ response =>
      (true, { response with response_code := 200, content_length := 10,
                             server_status := ServerConnectionCode.SERVER_CONNECTION_OK },
       "1288000000") }

/-- Example environment: the first two posts fail, every later one answers. -/
def examplePosts (n : Nat) : Post :=
  if n < 2 then unreachablePost else timePost

/-- Example constants with a limit of 0 errors. -/
def zeroLimitConstants : Constants :=
  { kMaxConnectionErrorsBeforeReset := 0
    RC_REQUEST_OK := 200
    kUnsetResponseCode := -1
    kUnsetContentLength := -1
    kUnsetPayloadLength := -1
    MakeSyncServerPath := fun path query => path ++ "?" ++ query
    string_max_size := 1073741823 }

/-- Example environment: no post ever connects. -/
def unreachablePosts (_n : Nat) : Post :=
  unreachablePost

/-- The `switch` of `HttpResponse::GetServerConnectionCodeString` (lines 46-54):
every `ENUM_CASE(x)` returns the text `#x` of its argument; `none` stands for
falling out of the `switch`. -/
def connectionCodeSwitch : ServerConnectionCode → Option String
  | ServerConnectionCode.NONE => some "NONE"
  | ServerConnectionCode.CONNECTION_UNAVAILABLE => some "CONNECTION_UNAVAILABLE"
  | ServerConnectionCode.IO_ERROR => some "IO_ERROR"
  | ServerConnectionCode.SYNC_SERVER_ERROR => some "SYNC_SERVER_ERROR"
  | ServerConnectionCode.SYNC_AUTH_ERROR => some "SYNC_AUTH_ERROR"
  | ServerConnectionCode.SERVER_CONNECTION_OK => some "SERVER_CONNECTION_OK"
  | ServerConnectionCode.RETRY => some "RETRY"

/-- The function `HttpResponse::GetServerConnectionCodeString` (lines 44-57):
the result of the `switch`, or the empty text that follows `NOTREACHED()`. -/
def GetServerConnectionCodeString (code : ServerConnectionCode) : String :=
  match connectionCodeSwitch code with
  | some name => name
  | none => ""

/-- Whether `GetServerConnectionCodeString` reaches `NOTREACHED()` (line 55). -/
def reachesNOTREACHED (code : ServerConnectionCode) : Bool :=
  (connectionCodeSwitch code).isNone

/-- The seven connection codes, in the order of the `switch`. -/
def allConnectionCodes : List ServerConnectionCode :=
  [ServerConnectionCode.NONE, ServerConnectionCode.CONNECTION_UNAVAILABLE,
   ServerConnectionCode.IO_ERROR, ServerConnectionCode.SYNC_SERVER_ERROR,
   ServerConnectionCode.SYNC_AUTH_ERROR, ServerConnectionCode.SERVER_CONNECTION_OK,
   ServerConnectionCode.RETRY]

/-! ## Posting a buffer -/

/-- The function `StripTrailingSlash` (lines 99-106), one `Char` per byte.
`none` stands for the `std::out_of_range` that the bounds-checked `s.at`
throws.  The `int` position is the size converted with `toInt32`; `at` and
`substr` take it converted to `size_type`, and `substr(0, n)` gives the first
`n` bytes, or all of them when there are fewer. -/
def StripTrailingSlash (s : String) : Option String :=
  let stripped_end_pos : Int := toInt32 s.length
  match s.data[toSizeT (toInt32 (stripped_end_pos - 1))]? with
  | none => none
  | some ch =>
    if ch = '/' then some ⟨s.data.take (toSizeT (toInt32 (stripped_end_pos - 1)))⟩
    else some ⟨s.data.take (toSizeT stripped_end_pos)⟩

/-- The function `ServerConnectionManager::Post::MakeConnectionURL`
(lines 111-121); `none` when `StripTrailingSlash` throws. -/
def MakeConnectionURL (sync_server path : String) (use_ssl : Bool) : Option String :=
  let connection_url := (if use_ssl then "https://" else "http://") ++ sync_server
  match StripTrailingSlash connection_url with
  | none => none
  | some stripped => some (stripped ++ path)

/-- The result the specification gives for `MakeConnectionURL`: scheme and
server, one trailing `/` removed if there is one, followed by the path. -/
def connectionUrlSpec (sync_server path : String) (use_ssl : Bool) : String :=
  let joined := (if use_ssl then "https://" else "http://") ++ sync_server
  (if joined.data.getLast? = some '/' then (⟨joined.data.dropLast⟩ : String) else joined) ++ path

end browser_sync

namespace net

/-! ## The proxy service of `net/proxy/proxy_service.h`

The header declares the class; the bodies of its out-of-line member functions
(`proxy_service.cc`) are not part of the sampled sources.  Types and inline
members are embedded from the header, the out-of-line members are modelled
from the specification and from the contracts documented in the header.
-/

/-- The enumeration `ProxyService::State` (lines 200-205). -/
inductive State where
  | STATE_NONE
  | STATE_WAITING_FOR_PROXY_CONFIG
  | STATE_WAITING_FOR_INIT_PROXY_RESOLVER
  | STATE_READY
  deriving DecidableEq, Repr

/-- The result codes the header names for `ResolveProxy` and
`ReconsiderProxyAfterError` (lines 50, 84, 222), and `OK`. -/
inductive NetError where
  | OK
  | ERR_IO_PENDING
  | ERR_FAILED
  deriving DecidableEq, Repr

/-- A proxy server is identified by scheme, host and port; the model keeps the
identity as text. -/
abbrev ProxyServer := String

/-- A URL, kept as text. -/
abbrev GURL := String

/-- Modelled from the spec: the content of a `ProxyConfig` (declared in
`proxy_config.h`, not in the sources), "one of autodetect, PAC-url,
manual-rules, direct". -/
inductive ProxyConfigSource where
  | direct
  | auto_detect
  | pac_url (url : GURL)
  | manual_rules (proxies : List ProxyServer)
  deriving DecidableEq, Repr

/-- Modelled from the spec: a `ProxyConfig` (declared in `proxy_config.h`, not
in the sources) is a snapshot with an identifier and a content. -/
structure ProxyConfig where
  id : Int
  source : ProxyConfigSource
  deriving DecidableEq, Repr

/-- Modelled from the spec: the constant `ProxyConfig::INVALID_ID` (declared in
`proxy_config.h`, not in the sources), the identifier that "means never
initialized". -/
def ProxyConfig.INVALID_ID : Int := 0

/-- Modelled from the spec: the default constructed `ProxyConfig()` (declared in
`proxy_config.h`, not in the sources): direct, never initialized. -/
def ProxyConfig.empty : ProxyConfig :=
  { id := ProxyConfig.INVALID_ID, source := ProxyConfigSource.direct }

/-- Modelled from the spec: `ProxyConfig::Equals` (declared in
`proxy_config.h`, not in the sources), "compare by value, not identity": the
contents are compared, the identifier is not. -/
def ProxyConfig.Equals (a b : ProxyConfig) : Bool :=
  decide (a.source = b.source)

/-- Modelled from the spec: whether a configuration "indicates a source
requiring script-based resolution" (autodetect or a PAC url). -/
def ProxyConfig.MayRequirePACResolver (c : ProxyConfig) : Bool :=
  match c.source with
  | ProxyConfigSource.auto_detect => true
  | ProxyConfigSource.pac_url _ => true
  | _ => false

/-- Modelled from the spec: the candidates a configuration gives without the
resolver: the manual rules, or nothing but the direct connection. -/
def ProxyConfig.ApplyRules (c : ProxyConfig) (_url : GURL) : List ProxyServer :=
  match c.source with
  | ProxyConfigSource.manual_rules proxies => proxies
  | _ => []

/-- Modelled from the spec: a `ProxyInfo` (declared in `proxy_info.h`, not in
the sources), the spec's ResolutionResult: "an ordered list of candidate
proxies to try, in preference order, plus a direct sentinel as an implicit
last resort". -/
structure ProxyInfo where
  proxies : List ProxyServer
  deriving DecidableEq, Repr

/-- One thing to try: a proxy or the direct connection. -/
inductive Candidate where
  | proxy (p : ProxyServer)
  | direct
  deriving DecidableEq, Repr

/-- The candidates of a result in the order they are tried: its proxies, then
the direct connection. -/
def ProxyInfo.candidates (r : ProxyInfo) : List Candidate :=
  r.proxies.map Candidate.proxy ++ [Candidate.direct]

/-- Modelled from the spec: the value of a RetryEntry (`ProxyRetryInfo`,
declared in `proxy_retry_info.h`, not in the sources). -/
structure ProxyRetryInfo where
  bad_until : Nat
  consecutive_failures : Nat
  deriving DecidableEq, Repr

/-- The type `ProxyRetryInfoMap` of the member `proxy_retry_info_` (line 272):
retry entries keyed by proxy. -/
abbrev ProxyRetryInfoMap := List (ProxyServer × ProxyRetryInfo)

/-- Modelled from the spec: a `PacRequest` (defined in `proxy_service.cc`, not
in the sources), the spec's PendingRequest, "one caller's in-flight resolution
or reconsideration call".  `id` is the handle the caller keeps; handles are
issued in increasing order, so a smaller handle means an earlier enqueue.
`is_started` tells whether the request has been sent to the resolver (it is
false while the request is suspended).  `fallback` is `none` for a resolution
call; for a reconsideration call it holds the candidates that were left in the
destination result when the failed proxy had been removed from it. -/
structure PacRequest where
  id : Nat
  url : GURL
  is_started : Bool
  fallback : Option (List ProxyServer)
  deriving DecidableEq, Repr

/-- One run of a completion callback: for which request, with which result code
and which result. -/
structure Completion where
  request : Nat
  result_code : NetError
  results : ProxyInfo
  deriving DecidableEq, Repr

/-- The data members of `ProxyService` (lines 255-295) that the model needs,
with the type `PendingRequests` (line 198) as a list in queue order.
`next_request_id` is the handle of the next `PacRequest`, `now` the reading of
the clock, `completed` the log of completion callbacks that were run, in the
order they were run, and `resumed` the log of the requests that were resumed,
in the order they were resumed. -/
structure ProxyService where
  config_ : ProxyConfig
  next_config_id_ : Int
  should_use_proxy_resolver_ : Bool
  proxy_retry_info_ : ProxyRetryInfoMap
  pending_requests_ : List PacRequest
  current_state_ : State
  next_request_id : Nat
  now : Nat
  completed : List Completion
  resumed : List Nat
  deriving DecidableEq, Repr

/-- Modelled from the spec: the constructor of `ProxyService` (defined in
`proxy_service.cc`, not in the sources): state `NONE`, no configuration, empty
queue, no bad proxies. -/
def ProxyService.init : ProxyService :=
  { config_ := ProxyConfig.empty
    next_config_id_ := 1
    should_use_proxy_resolver_ := false
    proxy_retry_info_ := []
    pending_requests_ := []
    current_state_ := State.STATE_NONE
    next_request_id := 0
    now := 0
    completed := []
    resumed := [] }

/-- The inline member `ProxyService::config_has_been_initialized`
(lines 112-115). -/
def config_has_been_initialized (s : ProxyService) : Bool :=
  decide (s.config_.id ≠ ProxyConfig.INVALID_ID)

/-- The inline member `ProxyService::proxy_retry_info` (lines 122-125). -/
def proxy_retry_info (s : ProxyService) : ProxyRetryInfoMap :=
  s.proxy_retry_info_

/-- The inline member `ProxyService::ClearBadProxiesCache` (lines 127-130):
`proxy_retry_info_.clear()`. -/
def ClearBadProxiesCache (s : ProxyService) : ProxyService :=
  { s with proxy_retry_info_ := [] }

/-! ### The retry registry and the cleaning of results -/

/-- Modelled from the spec: `is_bad(proxy, now)`, "true if a RetryEntry exists
for proxy and now < bad-until" (the lookup lives in `proxy_list.cc`, not in
the sources). -/
def is_bad (retry_info : ProxyRetryInfoMap) (now : Nat) (proxy : ProxyServer) : Bool :=
  retry_info.any fun e => e.1 == proxy && decide (now < e.2.bad_until)

/-- Modelled from the spec: `mark_bad(proxy, reconsider_after)`, "inserts or
updates a RetryEntry" (the update lives in `proxy_list.cc`, not in the
sources): the entry of the proxy is replaced by one that is bad until
`now + reconsider_after` and counts one failure more. -/
def mark_bad (retry_info : ProxyRetryInfoMap) (now reconsider_after : Nat)
    (proxy : ProxyServer) : ProxyRetryInfoMap :=
  let failures :=
    match retry_info.find? (fun e => e.1 == proxy) with
    | some e => e.2.consecutive_failures + 1
    | none => 1
  (proxy, { bad_until := now + reconsider_after, consecutive_failures := failures }) ::
    retry_info.filter (fun e => e.1 != proxy)

/-- Modelled from the spec: the filtering on resolution, "entries currently
is_bad are removed from the head of the candidate order but not discarded from
the list entirely, they are demoted to the end"; the direct connection stays
the implicit last candidate. -/
def DeprioritizeBadProxies (retry_info : ProxyRetryInfoMap) (now : Nat)
    (result : ProxyInfo) : ProxyInfo :=
  { proxies := result.proxies.filter (fun p => !is_bad retry_info now p) ++
               result.proxies.filter (fun p => is_bad retry_info now p) }

/-- Modelled from the spec: with the header comment of lines 241-243,
`ProxyService::DidFinishResolvingProxy` (defined in `proxy_service.cc`, not in
the sources) cleans the bad entries out of a successful result and passes the
result code on. -/
def DidFinishResolvingProxy (s : ProxyService) (result : ProxyInfo)
    (result_code : NetError) : NetError × ProxyInfo :=
  if result_code = NetError.OK then
    (result_code, DeprioritizeBadProxies s.proxy_retry_info_ s.now result)
  else
    (result_code, result)

/-! ### The pending queue -/

/-- Modelled from the spec: with the header comment of line 235,
`ProxyService::ContainsPendingRequest` (defined in `proxy_service.cc`, not in
the sources) "returns true if pending_requests_ contains req". -/
def ContainsPendingRequest (s : ProxyService) (req : Nat) : Bool :=
  s.pending_requests_.any fun r => r.id == req

/-- Modelled from the spec: with the header comment of line 238,
`ProxyService::RemovePendingRequest` (defined in `proxy_service.cc`, not in the
sources) "removes req from the list of pending requests"; the queue is an
ordered set, so there is at most one entry to remove and nothing happens when
there is none. -/
def RemovePendingRequest (s : ProxyService) (req : Nat) : ProxyService :=
  { s with pending_requests_ := s.pending_requests_.filter fun r => r.id != req }

/-- Modelled from the spec: with the header comment of line 93,
`ProxyService::CancelPacRequest` (defined in `proxy_service.cc`, not in the
sources) "delegates to the queue": the request is removed if it is still
present. -/
def CancelPacRequest (s : ProxyService) (pac_request : Nat) : ProxyService :=
  RemovePendingRequest s pac_request

/-- Modelled from the spec: with the header comment of lines 227-228,
`ProxyService::SuspendAllPendingRequests` (defined in `proxy_service.cc`, not
in the sources) "marks every queued request as non-progressing without
removing it": what was sent to the resolver is cancelled there. -/
def SuspendAllPendingRequests (s : ProxyService) : ProxyService :=
  { s with pending_requests_ := s.pending_requests_.map fun r => { r with is_started := false } }

/-- The completion of request `r` with the outcome of a resolution: the result
is cleaned by `DidFinishResolvingProxy` and handed to the callback. -/
def completionOf (s : ProxyService) (r : PacRequest) (result : ProxyInfo)
    (result_code : NetError) : Completion :=
  { request := r.id
    result_code := (DidFinishResolvingProxy s result result_code).1
    results := (DidFinishResolvingProxy s result result_code).2 }

/-- Modelled from the spec: the result that a `PacRequest` (defined in
`proxy_service.cc`, not in the sources) completes with when `candidates` is
what the configuration or the resolver gives for its url: these candidates for
a resolution call, and for a reconsideration call the candidates that the
fallback left in its destination result ("returning the next candidate"). -/
def PacRequest.resultFor (r : PacRequest) (candidates : List ProxyServer) : ProxyInfo :=
  match r.fallback with
  | some left => ⟨left⟩
  | none => ⟨candidates⟩

/-- The handles of the queued requests that are suspended, in queue order. -/
def stalledHandles (s : ProxyService) : List Nat :=
  (s.pending_requests_.filter fun r => !r.is_started).map fun r => r.id

/-- Modelled from the spec: `resume_all()` (`ResumeAllPendingRequests`, named
on line 228, defined in `proxy_service.cc`), "re-attempts every suspended
request, in original order, against the now-available resolver; each success
or failure completes and removes that request from the queue".  The suspended
requests are resumed in queue order (logged in `resumed`).  When the resolver
is in use every request is sent to it and completes when the resolver answers
its call (`OnResolverComplete`); when it is not, every request completes at
once from the configuration, in queue order. -/
def ResumeAllPendingRequests (s : ProxyService) : ProxyService :=
  if s.should_use_proxy_resolver_ then
    { s with
      pending_requests_ := s.pending_requests_.map fun r => { r with is_started := true }
      resumed := s.resumed ++ stalledHandles s }
  else
    { s with
      pending_requests_ := []
      resumed := s.resumed ++ stalledHandles s
      completed := s.completed ++
        s.pending_requests_.map fun r =>
          completionOf s r (r.resultFor (s.config_.ApplyRules r.url)) NetError.OK }

/-- Modelled from the spec: with the header comment of lines 231-232,
`ProxyService::SetReady` (defined in `proxy_service.cc`, not in the sources)
"advances the current state to STATE_READY, and resumes any pending requests
which had been stalled". -/
def SetReady (s : ProxyService) : ProxyService :=
  ResumeAllPendingRequests { s with current_state_ := State.STATE_READY }

/-- Modelled from the spec: the resolver answers the call that was made for
the request with handle `req`.  "Multiple outstanding resolver calls may run
concurrently", so the answer may be for any request that has been sent to the
resolver, not only for the oldest one.  "Each success or failure completes and
removes that request from the queue": the request completes with the answer
(the candidates, or `none` for a failure) and leaves the queue.  An answer for
a request that is not outstanding (cancelled, completed, or suspended because
the service is not `READY`) is dropped. -/
def OnResolverComplete (s : ProxyService) (req : Nat) (answer : Option (List ProxyServer)) :
    ProxyService :=
  if s.current_state_ = State.STATE_READY ∧ s.should_use_proxy_resolver_ = true then
    match s.pending_requests_.find? (fun r => r.id == req && r.is_started) with
    | none => s
    | some r =>
      { RemovePendingRequest s req with
        completed := s.completed ++
          [match answer with
           | some proxies => completionOf s r (r.resultFor proxies) NetError.OK
           | none => completionOf s r ⟨[]⟩ NetError.ERR_FAILED] }
  else s

/-! ### The configuration state machine -/

/-- Modelled from the spec: with the header comment of lines 209-211,
`ProxyService::ResetProxyConfig` (defined in `proxy_service.cc`, not in the
sources) "resets all the variables associated with the current proxy
configuration, and rewinds the current state to STATE_NONE; returns the
previous value of current_state_": it "clears the should-use-resolver flag,
and suspends all pending requests"; the held configuration is discarded. -/
def ResetProxyConfig (s : ProxyService) : State × ProxyService :=
  (s.current_state_,
   { SuspendAllPendingRequests s with
     config_ := ProxyConfig.empty
     should_use_proxy_resolver_ := false
     current_state_ := State.STATE_NONE })

/-- Modelled from the spec: with the header comment of lines 214-215,
`ProxyService::ApplyProxyConfigIfAvailable` (defined in `proxy_service.cc`, not
in the sources) asks the configuration source for the configuration: the state
becomes `WAITING_FOR_PROXY_CONFIG`, "configuration has been requested from the
external configuration source; not yet received". -/
def ApplyProxyConfigIfAvailable (s : ProxyService) : ProxyService :=
  { s with current_state_ := State.STATE_WAITING_FOR_PROXY_CONFIG }

/-- Modelled from the spec: the configuration source supplies the
configuration that was asked for.  It gets the next identifier; "if it
indicates a source requiring script-based resolution, resolver initialization
begins, otherwise [the service] transitions straight to READY". -/
def OnConfigAvailable (s : ProxyService) (source : ProxyConfigSource) : ProxyService :=
  if s.current_state_ = State.STATE_WAITING_FOR_PROXY_CONFIG then
    let s1 := { s with
      config_ := { id := s.next_config_id_, source := source }
      next_config_id_ := s.next_config_id_ + 1 }
    if s1.config_.MayRequirePACResolver then
      { s1 with current_state_ := State.STATE_WAITING_FOR_INIT_PROXY_RESOLVER }
    else
      SetReady s1
  else s

/-- Modelled from the spec: with the header comment of lines 218-219,
`ProxyService::OnInitProxyResolverComplete` (defined in `proxy_service.cc`, not
in the sources): "resolver initialization completes (success or exhausted
fallback chain resulting in direct-connection default)" and the service becomes
`READY`; the resolver is used only after a success. -/
def OnInitProxyResolverComplete (s : ProxyService) (success : Bool) : ProxyService :=
  if s.current_state_ = State.STATE_WAITING_FOR_INIT_PROXY_RESOLVER then
    SetReady { s with should_use_proxy_resolver_ := success }
  else s

/-- Modelled from the spec: with the header comment of lines 132-134,
`ProxyService::ForceReloadProxyConfig` (defined in `proxy_service.cc`, not in
the sources) "discards held configuration identifier and forces NONE to
WAITING_FOR_CONFIG, without clearing the retry cache". -/
def ForceReloadProxyConfig (s : ProxyService) : ProxyService :=
  ApplyProxyConfigIfAvailable (ResetProxyConfig s).2

/-- Modelled from the spec: with the header comment of line 249,
`ProxyService::OnIPAddressChanged` (defined in `proxy_service.cc`, not in the
sources): a "network-interface-change notification forces a full reset and
reload". -/
def OnIPAddressChanged (s : ProxyService) : ProxyService :=
  ForceReloadProxyConfig s

/-- Modelled from the spec: `ProxyService::OnProxyConfigChanged` (line 253,
defined in `proxy_service.cc`, not in the sources): a "configuration-change
notification while in any state other than NONE forces a reset to NONE
followed immediately by re-entry to WAITING_FOR_CONFIG, unless the newly
reported configuration is identical in content to the currently held one, in
that case no transition occurs". -/
def OnProxyConfigChanged (s : ProxyService) (config : ProxyConfig) : ProxyService :=
  if s.current_state_ = State.STATE_NONE then s
  else if config.Equals s.config_ then s
  else ApplyProxyConfigIfAvailable (ResetProxyConfig s).2

/-! ### Resolution -/

/-- Modelled from the spec: with the header comment of lines 222-224,
`ProxyService::TryToCompleteSynchronously` (defined in `proxy_service.cc`, not
in the sources) "returns ERR_IO_PENDING if the request cannot be completed
synchronously, otherwise it fills result; completing synchronously means we
don't need to query ProxyResolver".  The attempt is made when the state is
`READY` and no earlier request is queued that the completion would overtake. -/
def TryToCompleteSynchronously (s : ProxyService) (url : GURL) : NetError × ProxyInfo :=
  if s.current_state_ = State.STATE_READY ∧ s.pending_requests_ = [] then
    if s.should_use_proxy_resolver_ then (NetError.ERR_IO_PENDING, ⟨[]⟩)
    else (NetError.OK, ⟨s.config_.ApplyRules url⟩)
  else (NetError.ERR_IO_PENDING, ⟨[]⟩)

/-- What a call of `ResolveProxy` or `ReconsiderProxyAfterError` gives back: the
returned code, the result (filled on a synchronous completion), the handle
written to `pac_request` when the request was queued, and the service
afterwards. -/
structure ResolveOutcome where
  code : NetError
  results : ProxyInfo
  pac_request : Option Nat
  service : ProxyService
  deriving DecidableEq, Repr

/-- Modelled from the spec: with the header comment of lines 50-59,
`ProxyService::ResolveProxy` (defined in `proxy_service.cc`, not in the
sources).  A call in state `NONE` triggers the acquisition of the
configuration.  The call "attempts synchronous completion iff state is READY
and no queued earlier requests would be reordered; otherwise enqueues and
returns pending"; a request queued in state `READY` is sent to the resolver
right away. -/
def ResolveProxy (s : ProxyService) (url : GURL) : ResolveOutcome :=
  let s1 := if s.current_state_ = State.STATE_NONE then ApplyProxyConfigIfAvailable s else s
  let rv := TryToCompleteSynchronously s1 url
  if rv.1 ≠ NetError.ERR_IO_PENDING then
    { code := (DidFinishResolvingProxy s1 rv.2 rv.1).1
      results := (DidFinishResolvingProxy s1 rv.2 rv.1).2
      pac_request := none
      service := s1 }
  else
    let req : PacRequest :=
      { id := s1.next_request_id
        url := url
        is_started := decide (s1.current_state_ = State.STATE_READY)
        fallback := none }
    { code := NetError.ERR_IO_PENDING
      results := ⟨[]⟩
      pac_request := some req.id
      service := { s1 with
        pending_requests_ := s1.pending_requests_ ++ [req]
        next_request_id := s1.next_request_id + 1 } }

/-- Modelled from the spec: with the header comment of lines 75-84,
`ProxyService::ReconsiderProxyAfterError` (defined in `proxy_service.cc`, not
in the sources), called after the first proxy of `results` failed.  "It fails
(reports no more options) if the only candidate list was already direct-only"
("returns ERR_FAILED if there is not another proxy config to try").  Otherwise
"it marks that proxy bad and re-resolves, returning the next candidate": the
failed proxy leaves the result ("entries may be removed by fallback logic"),
and the call follows the "same synchronous/async contract" as `ResolveProxy`
("the semantics of this call are otherwise similar to ResolveProxy"): it
completes at once when `TryToCompleteSynchronously` allows it, and is queued
and answered through its callback otherwise; either way the result is the
candidates that are left, cleaned by `DidFinishResolvingProxy`.
`reconsider_after` is the backoff the caller's policy gives for the failed
proxy. -/
def ReconsiderProxyAfterError (s : ProxyService) (url : GURL) (results : ProxyInfo)
    (reconsider_after : Nat) : ResolveOutcome :=
  match results.proxies with
  | [] =>
    { code := NetError.ERR_FAILED, results := results, pac_request := none, service := s }
  | first :: rest =>
    let s0 := { s with
      proxy_retry_info_ := mark_bad s.proxy_retry_info_ s.now reconsider_after first }
    let s1 := if s0.current_state_ = State.STATE_NONE then ApplyProxyConfigIfAvailable s0 else s0
    let rv := TryToCompleteSynchronously s1 url
    if rv.1 ≠ NetError.ERR_IO_PENDING then
      { code := (DidFinishResolvingProxy s1 ⟨rest⟩ rv.1).1
        results := (DidFinishResolvingProxy s1 ⟨rest⟩ rv.1).2
        pac_request := none
        service := s1 }
    else
      let req : PacRequest :=
        { id := s1.next_request_id
          url := url
          is_started := decide (s1.current_state_ = State.STATE_READY)
          fallback := some rest }
      { code := NetError.ERR_IO_PENDING
        results := ⟨rest⟩
        pac_request := some req.id
        service := { s1 with
          pending_requests_ := s1.pending_requests_ ++ [req]
          next_request_id := s1.next_request_id + 1 } }

/-! ### Runs of the service -/

/-- The things that can happen to a proxy service: the calls of its public
interface, the notifications of its observers, the answers of its
collaborators, and the passing of time. -/
inductive Step where
  | ResolveProxy (url : GURL)
  | ReconsiderProxyAfterError (url : GURL) (results : ProxyInfo) (reconsider_after : Nat)
  | CancelPacRequest (pac_request : Nat)
  | ForceReloadProxyConfig
  | OnIPAddressChanged
  | OnProxyConfigChanged (config : ProxyConfig)
  | OnConfigAvailable (source : ProxyConfigSource)
  | OnInitProxyResolverComplete (success : Bool)
  | OnResolverComplete (req : Nat) (answer : Option (List ProxyServer))
  | TimePasses (dt : Nat)
  deriving Repr

/-- The service after one step. -/
def step (s : ProxyService) : Step → ProxyService
  | Step.ResolveProxy url => (ResolveProxy s url).service
  | Step.ReconsiderProxyAfterError url results reconsider_after =>
    (ReconsiderProxyAfterError s url results reconsider_after).service
  | Step.CancelPacRequest pac_request => CancelPacRequest s pac_request
  | Step.ForceReloadProxyConfig => ForceReloadProxyConfig s
  | Step.OnIPAddressChanged => OnIPAddressChanged s
  | Step.OnProxyConfigChanged config => OnProxyConfigChanged s config
  | Step.OnConfigAvailable source => OnConfigAvailable s source
  | Step.OnInitProxyResolverComplete success => OnInitProxyResolverComplete s success
  | Step.OnResolverComplete req answer => OnResolverComplete s req answer
  | Step.TimePasses dt => { s with now := s.now + dt }

/-- Whether a step writes the retry registry: only the fallback after a failed
proxy marks a proxy bad. -/
def Step.marksBad : Step → Bool
  | Step.ReconsiderProxyAfterError _ _ _ => true
  | _ => false

/-- The service after a sequence of steps. -/
def run (s : ProxyService) (steps : List Step) : ProxyService :=
  steps.foldl step s

/-- The handles of the requests whose completion callback was run, in the order
the callbacks were run. -/
def completedHandles (s : ProxyService) : List Nat :=
  s.completed.map fun c => c.request

/-- The handles of the queued requests, in queue order. -/
def pendingHandles (s : ProxyService) : List Nat :=
  s.pending_requests_.map fun r => r.id

/-- Whether a step, when it is an answer of the resolver, answers the oldest
call: it is for the request at the head of the queue, or for a request that is
not queued (such an answer is dropped).  Every other step passes. -/
def Step.answersOldest (s : ProxyService) : Step → Bool
  | Step.OnResolverComplete req _ =>
    match s.pending_requests_ with
    | [] => true
    | r :: _ => r.id == req || !ContainsPendingRequest s req
  | _ => true

/-- Whether, in the run of `steps` from `s`, the resolver answers its calls one
after the other in the order they were made: every answer is for the oldest
request of the queue at that moment. -/
def answersInOrder : ProxyService → List Step → Bool
  | _, [] => true
  | s, st :: rest => st.answersOldest s && answersInOrder (step s st) rest

/-- How a step that is not an answer of the resolver may move the handles: the
callbacks run so far followed by the queue stay the same sequence of handles,
the log of callbacks only growing (requests move from the queue to the log in
queue order, or nothing moves); or one request with the next handle joins the
end of the queue; or one handle leaves the queue. -/
def HandlesStepInOrder (s t : ProxyService) : Prop :=
  (completedHandles t ++ pendingHandles t = completedHandles s ++ pendingHandles s ∧
    t.next_request_id = s.next_request_id ∧
    ∃ l, completedHandles t = completedHandles s ++ l) ∨
  (completedHandles t = completedHandles s ∧
    pendingHandles t = pendingHandles s ++ [s.next_request_id] ∧
    t.next_request_id = s.next_request_id + 1) ∨
  (∃ h, completedHandles t = completedHandles s ∧
    pendingHandles t = (pendingHandles s).filter (fun x => x != h) ∧
    t.next_request_id = s.next_request_id)

/-- How one step may move the handles: the callbacks run so far followed by the
queue stay the same sequence of handles, the log of callbacks only growing
(requests move from the queue to the log in queue order, or nothing moves); or
one request with the next handle joins the end of the queue; or one handle
leaves the queue; or one queued request completes: its handle moves from the
queue to the end of the log. -/
def HandlesStep (s t : ProxyService) : Prop :=
  (completedHandles t ++ pendingHandles t = completedHandles s ++ pendingHandles s ∧
    t.next_request_id = s.next_request_id ∧
    ∃ l, completedHandles t = completedHandles s ++ l) ∨
  (completedHandles t = completedHandles s ∧
    pendingHandles t = pendingHandles s ++ [s.next_request_id] ∧
    t.next_request_id = s.next_request_id + 1) ∨
  (∃ h, completedHandles t = completedHandles s ∧
    pendingHandles t = (pendingHandles s).filter (fun x => x != h) ∧
    t.next_request_id = s.next_request_id) ∨
  (∃ h, h ∈ pendingHandles s ∧ completedHandles t = completedHandles s ++ [h] ∧
    pendingHandles t = (pendingHandles s).filter (fun x => x != h) ∧
    t.next_request_id = s.next_request_id)

/-- The handles are distinct: no handle is both completed and queued or occurs
twice, and every handle in use is below the next one to be issued. -/
def HandlesFresh (s : ProxyService) : Prop :=
  (completedHandles s ++ pendingHandles s).Nodup ∧
  ∀ h ∈ completedHandles s ++ pendingHandles s, h < s.next_request_id

/-- The held configuration and the state agree: identifiers are issued from 1
on; while no configuration is applied (`STATE_NONE`,
`STATE_WAITING_FOR_PROXY_CONFIG`) the held identifier is `INVALID_ID`; once one
is applied (`STATE_WAITING_FOR_INIT_PROXY_RESOLVER`, `STATE_READY`) the held
identifier is one that was issued. -/
def ConfigMatchesState (s : ProxyService) : Prop :=
  1 ≤ s.next_config_id_ ∧
  ((s.current_state_ = State.STATE_NONE ∨
      s.current_state_ = State.STATE_WAITING_FOR_PROXY_CONFIG) →
    s.config_.id = ProxyConfig.INVALID_ID) ∧
  ((s.current_state_ = State.STATE_WAITING_FOR_INIT_PROXY_RESOLVER ∨
      s.current_state_ = State.STATE_READY) →
    1 ≤ s.config_.id)

end net

namespace browser_sync

/-! ## Facts about the watcher -/

theorem NotifyStatusChanged_reachable (m : ServerConnectionManager) :
    (NotifyStatusChanged m).server_reachable_ = m.server_reachable_ := rfl

/-- Claim C2, as stated, fails: a manager created by the constructor, whose
connection code and reachability both change during the scope of a watcher
(as on the success path of `PostBufferToPath`), is notified once, not twice. -/
theorem watcher_both_changed_one_notification :
    changedAttributes
        (ScopedServerStatusWatcher.create ServerConnectionManager.init ⟨0, 0, 0, ServerConnectionCode.NONE⟩).1
        ⟨200, 4, 0, ServerConnectionCode.SERVER_CONNECTION_OK⟩
        { ServerConnectionManager.init with server_reachable_ := true } = 2 ∧
    notificationsBetween
        { ServerConnectionManager.init with server_reachable_ := true }
        (ScopedServerStatusWatcher.destroy
          (ScopedServerStatusWatcher.create ServerConnectionManager.init ⟨0, 0, 0, ServerConnectionCode.NONE⟩).1
          ⟨200, 4, 0, ServerConnectionCode.SERVER_CONNECTION_OK⟩
          { ServerConnectionManager.init with server_reachable_ := true }) = 1 := by
  decide

/-- Claim C2, amended: destroying a watcher calls `NotifyStatusChanged` exactly
once when the connection code, the reachability flag, or both changed during
its scope, and not at all when neither did; the one event carries the new
connection code and the current reachability flag, and the manager's
`server_status_` ends equal to the response's `server_status`. -/
theorem watcher_destroy_notifies_at_most_once (m0 m1 : ServerConnectionManager)
    (r0 r1 : HttpResponse) :
    notificationsBetween m1 ((ScopedServerStatusWatcher.create m0 r0).1.destroy r1 m1) =
        (if changedAttributes (ScopedServerStatusWatcher.create m0 r0).1 r1 m1 = 0 then 0 else 1) ∧
    ((ScopedServerStatusWatcher.create m0 r0).1.destroy r1 m1).notified =
        m1.notified ++
          (if changedAttributes (ScopedServerStatusWatcher.create m0 r0).1 r1 m1 = 0 then []
           else [⟨r1.server_status, m1.server_reachable_⟩]) ∧
    ((ScopedServerStatusWatcher.create m0 r0).1.destroy r1 m1).server_status_ = r1.server_status ∧
    ((ScopedServerStatusWatcher.create m0 r0).1.destroy r1 m1).server_reachable_ =
        m1.server_reachable_ := by
  unfold ScopedServerStatusWatcher.destroy changedAttributes notificationsBetween
    ScopedServerStatusWatcher.create NotifyStatusChanged
  by_cases h1 : m1.server_status_ = r1.server_status <;>
    by_cases h2 : m0.server_reachable_ = m1.server_reachable_ <;>
    simp [h1, h2]

/-- Claim C7: destroying a watcher whose response carries the manager's own
`server_status_` and whose captured reachability equals the manager's
`server_reachable_` makes no `NotifyStatusChanged` call and leaves the manager
(in particular `server_status_` and `server_reachable_`) as it was. -/
theorem watcher_destroy_noop (m0 m1 : ServerConnectionManager) (r0 r1 : HttpResponse)
    (hstatus : r1.server_status = m1.server_status_)
    (hreach : m1.server_reachable_ = (ScopedServerStatusWatcher.create m0 r0).1.server_reachable_) :
    notificationsBetween m1 ((ScopedServerStatusWatcher.create m0 r0).1.destroy r1 m1) = 0 ∧
    ((ScopedServerStatusWatcher.create m0 r0).1.destroy r1 m1).notified = m1.notified ∧
    ((ScopedServerStatusWatcher.create m0 r0).1.destroy r1 m1).server_status_ = m1.server_status_ ∧
    ((ScopedServerStatusWatcher.create m0 r0).1.destroy r1 m1).server_reachable_ =
        m1.server_reachable_ ∧
    (ScopedServerStatusWatcher.create m0 r0).1.destroy r1 m1 = m1 := by
  have h : (ScopedServerStatusWatcher.create m0 r0).1.destroy r1 m1 = m1 := by
    unfold ScopedServerStatusWatcher.destroy
    simp [hstatus, hreach]
  rw [h]
  simp [notificationsBetween]

/-- Witness for C7: a manager that is reachable with status
`SERVER_CONNECTION_OK`, watched over a scope that changes neither. -/
theorem watcher_destroy_noop_witness :
    notificationsBetween
      ⟨3, ServerConnectionCode.SERVER_CONNECTION_OK, true, [], 5⟩
      ((ScopedServerStatusWatcher.create
          ⟨2, ServerConnectionCode.SERVER_CONNECTION_OK, true, [], 4⟩
          ⟨0, 0, 0, ServerConnectionCode.NONE⟩).1.destroy
        ⟨200, 2, 0, ServerConnectionCode.SERVER_CONNECTION_OK⟩
        ⟨3, ServerConnectionCode.SERVER_CONNECTION_OK, true, [], 5⟩) = 0 :=
  (watcher_destroy_noop
    ⟨2, ServerConnectionCode.SERVER_CONNECTION_OK, true, [], 4⟩
    ⟨3, ServerConnectionCode.SERVER_CONNECTION_OK, true, [], 5⟩
    ⟨0, 0, 0, ServerConnectionCode.NONE⟩
    ⟨200, 2, 0, ServerConnectionCode.SERVER_CONNECTION_OK⟩ rfl rfl).1

/-! ## Facts about the time check and the error counter -/

/-- The conversion `toInt32` is the usual wrap-around formula. -/
theorem toInt32_eq (x : Int) :
    toInt32 x = (x + 2147483648) % 4294967296 - 2147483648 := by
  unfold toInt32
  simp only
  split_ifs <;> omega

theorem toInt32_one : toInt32 (0 + 1) = 1 := by decide

/-- The loop of `CheckTime` only moves the post counter of the manager. -/
theorem CheckTimeLoop_frame (c : Constants) (mk : Nat → Post) :
    ∀ (n : Nat) (r : HttpResponse) (m : ServerConnectionManager) (t : Option Int)
      (r1 : HttpResponse) (m1 : ServerConnectionManager),
      CheckTimeLoop c mk n r m = Except.ok (t, r1, m1) →
        m1.server_reachable_ = m.server_reachable_ ∧ m1.error_count_ = m.error_count_ ∧
        m1.server_status_ = m.server_status_ ∧ m1.notified = m.notified := by
  intro n
  induction n with
  | zero =>
    intro r m t r1 m1 h
    simp only [CheckTimeLoop, Except.ok.injEq, Prod.mk.injEq] at h
    obtain ⟨-, -, rfl⟩ := h
    exact ⟨rfl, rfl, rfl, rfl⟩
  | succ n ih =>
    intro r m t r1 m1 h
    simp only [CheckTimeLoop] at h
    split at h
    · have h2 := ih _ _ _ _ _ h
      exact h2
    · split at h
      · exact absurd h (by simp)
      · split at h
        · exact absurd h (by simp)
        · split at h
          · have h2 := ih _ _ _ _ _ h
            exact h2
          · split at h
            · exact absurd h (by simp)
            · simp only [Except.ok.injEq, Prod.mk.injEq] at h
              obtain ⟨-, -, rfl⟩ := h
              exact ⟨rfl, rfl, rfl, rfl⟩

/-- From a counter of 0 and a limit of at least 1, `IncrementErrorCount`
returns true without probing. -/
theorem IncrementErrorCount_from_zero (c : Constants) (mk : Nat → Post)
    (hK : 1 ≤ c.kMaxConnectionErrorsBeforeReset) (fuel : Nat) (m : ServerConnectionManager)
    (h0 : m.error_count_ = 0) :
    IncrementErrorCount c mk (fuel + 1) m = Except.ok (true, { m with error_count_ := 1 }) := by
  simp only [IncrementErrorCount, h0, toInt32_one]
  rw [if_neg (not_lt.mpr hK)]

/-- Claim C14: the connection code is one of exactly seven values; for each of
them the `switch` of `GetServerConnectionCodeString` returns, so that
`NOTREACHED()` is not reached; the text returned is the name of the enumerator
and is not empty; and different codes give different texts. -/
theorem GetServerConnectionCodeString_names :
    (∀ code : ServerConnectionCode, code ∈ allConnectionCodes) ∧
    allConnectionCodes.length = 7 ∧ allConnectionCodes.Nodup ∧
    (∀ code : ServerConnectionCode, reachesNOTREACHED code = false) ∧
    (∀ code : ServerConnectionCode,
        connectionCodeSwitch code = some (GetServerConnectionCodeString code)) ∧
    (GetServerConnectionCodeString ServerConnectionCode.NONE = "NONE" ∧
      GetServerConnectionCodeString ServerConnectionCode.CONNECTION_UNAVAILABLE =
        "CONNECTION_UNAVAILABLE" ∧
      GetServerConnectionCodeString ServerConnectionCode.IO_ERROR = "IO_ERROR" ∧
      GetServerConnectionCodeString ServerConnectionCode.SYNC_SERVER_ERROR =
        "SYNC_SERVER_ERROR" ∧
      GetServerConnectionCodeString ServerConnectionCode.SYNC_AUTH_ERROR = "SYNC_AUTH_ERROR" ∧
      GetServerConnectionCodeString ServerConnectionCode.SERVER_CONNECTION_OK =
        "SERVER_CONNECTION_OK" ∧
      GetServerConnectionCodeString ServerConnectionCode.RETRY = "RETRY") ∧
    (∀ code : ServerConnectionCode, GetServerConnectionCodeString code ≠ "") ∧
    (allConnectionCodes.map GetServerConnectionCodeString).Nodup ∧
    (∀ a b : ServerConnectionCode, a ≠ b →
        GetServerConnectionCodeString a ≠ GetServerConnectionCodeString b) := by
  refine ⟨?_, rfl, by decide, ?_, ?_, ⟨rfl, rfl, rfl, rfl, rfl, rfl, rfl⟩, ?_, by decide, ?_⟩
  · intro code; cases code <;> decide
  · intro code; cases code <;> rfl
  · intro code; cases code <;> rfl
  · intro code; cases code <;> decide
  · intro a b hab
    cases a <;> cases b <;> first | exact absurd rfl hab | decide

/-- Witness for C14: `NONE` and `RETRY` are different codes with different
names. -/
theorem GetServerConnectionCodeString_names_witness :
    GetServerConnectionCodeString ServerConnectionCode.NONE ≠
      GetServerConnectionCodeString ServerConnectionCode.RETRY :=
  GetServerConnectionCodeString_names.2.2.2.2.2.2.2.2
    ServerConnectionCode.NONE ServerConnectionCode.RETRY (by decide)

/-! ## Facts about the 32-bit conversion -/

theorem toInt32_of_range (x : Int) (h0 : -2147483648 ≤ x) (h1 : x < 2147483648) :
    toInt32 x = x := by
  rw [toInt32_eq]
  omega

theorem destroy_posts_made (w : ScopedServerStatusWatcher) (r : HttpResponse)
    (m : ServerConnectionManager) : (w.destroy r m).posts_made = m.posts_made := by
  unfold ScopedServerStatusWatcher.destroy
  split_ifs <;> rfl

/-- The loop of `CheckTime` makes at most as many posts as it has attempts, and
all of them when no attempt succeeds. -/
theorem CheckTimeLoop_posts (c : Constants) (mk : Nat → Post) :
    ∀ (n : Nat) (r : HttpResponse) (m : ServerConnectionManager) (t : Option Int)
      (r1 : HttpResponse) (m1 : ServerConnectionManager),
      CheckTimeLoop c mk n r m = Except.ok (t, r1, m1) →
        m.posts_made ≤ m1.posts_made ∧
        m1.posts_made ≤ m.posts_made + n ∧
        (t = none → m1.posts_made = m.posts_made + n) := by
  intro n
  induction n with
  | zero =>
    intro r m t r1 m1 h
    simp only [CheckTimeLoop, Except.ok.injEq, Prod.mk.injEq] at h
    obtain ⟨-, -, rfl⟩ := h
    simp
  | succ n ih =>
    intro r m t r1 m1 h
    simp only [CheckTimeLoop] at h
    have key : ∀ (r2 : HttpResponse),
        CheckTimeLoop c mk n r2 { m with posts_made := m.posts_made + 1 } =
          Except.ok (t, r1, m1) →
        m.posts_made ≤ m1.posts_made ∧
        m1.posts_made ≤ m.posts_made + (n + 1) ∧
        (t = none → m1.posts_made = m.posts_made + (n + 1)) := by
      intro r2 h2
      have h3 := ih _ _ _ _ _ h2
      simp only at h3
      exact ⟨by omega, by omega, fun ht => by have := h3.2.2 ht; omega⟩
    split at h
    · exact key _ h
    · split at h
      · exact absurd h (by simp)
      · split at h
        · exact absurd h (by simp)
        · split at h
          · exact key _ h
          · split at h
            · exact absurd h (by simp)
            · simp only [Except.ok.injEq, Prod.mk.injEq] at h
              obtain ⟨rfl, -, rfl⟩ := h
              simp

/-- The only fault of `ReadDownloadResponse` is the `CHECK` of `ReadResponse`. -/
theorem ReadDownloadResponse_error (buffer_ : String) (r : HttpResponse) (e : Fault)
    (h : ReadDownloadResponse buffer_ r = Except.error e) : e = Fault.check_failed := by
  unfold ReadDownloadResponse ReadResponse at h
  by_cases hc : toInt32 r.content_length ≤ toInt32 buffer_.length
  · simp only [hc, if_true] at h
    split_ifs at h
  · simp only [hc, if_false, Except.error.injEq] at h
    exact h.symm

/-- The loop of `CheckTime` does not use the fuel. -/
theorem CheckTimeLoop_not_out_of_fuel (c : Constants) (mk : Nat → Post) :
    ∀ (n : Nat) (r : HttpResponse) (m : ServerConnectionManager),
      CheckTimeLoop c mk n r m ≠ Except.error Fault.out_of_fuel := by
  intro n
  induction n with
  | zero => intro r m h; simp [CheckTimeLoop] at h
  | succ n ih =>
    intro r m h
    simp only [CheckTimeLoop] at h
    split at h
    · exact ih _ _ h
    · split at h
      · simp at h
      · split at h
        · rename_i e he
          have he2 := ReadDownloadResponse_error _ _ _ he
          simp only [Except.error.injEq] at h
          rw [he2] at h
          exact absurd h (by decide)
        · split at h
          · exact ih _ _ h
          · split at h
            · rename_i e he
              unfold atoi at he
              split_ifs at he
              simp only [Except.error.injEq] at he h
              rw [← he] at h
              exact absurd h (by decide)
            · simp at h

/-- Started on a counter of 0 with a limit of at least 1, `CheckTime` gives the
same result whatever nesting is allowed beyond one level: the nested
`IncrementErrorCount` sees 1 and returns without probing. -/
theorem CheckTimeWith_fuel_from_zero (c : Constants) (mk : Nat → Post)
    (hK : 1 ≤ c.kMaxConnectionErrorsBeforeReset) (fuel : Nat) (m : ServerConnectionManager)
    (h0 : m.error_count_ = 0) :
    CheckTimeWith c mk (IncrementErrorCount c mk (fuel + 1)) m =
      CheckTimeWith c mk (IncrementErrorCount c mk 1) m := by
  simp only [CheckTimeWith]
  split
  · rfl
  · rfl
  · rename_i response1 m1 hloop
    have hm1 : m1.error_count_ = 0 := by
      rw [(CheckTimeLoop_frame c mk _ _ _ _ _ _ hloop).2.1, h0]
    rw [IncrementErrorCount_from_zero c mk hK fuel m1 hm1,
      IncrementErrorCount_from_zero c mk hK 0 m1 hm1]

/-- With a limit of at least 1, two levels of nesting are all `IncrementErrorCount`
ever uses. -/
theorem IncrementErrorCount_fuel (c : Constants) (mk : Nat → Post)
    (hK : 1 ≤ c.kMaxConnectionErrorsBeforeReset) (fuel : Nat) (m : ServerConnectionManager) :
    IncrementErrorCount c mk (fuel + 2) m = IncrementErrorCount c mk 2 m := by
  rw [IncrementErrorCount, IncrementErrorCount]
  simp only
  split_ifs
  · rw [CheckTimeWith_fuel_from_zero c mk hK fuel _ rfl]
  · rfl

/-- With a limit of at least 1, `CheckTime` started on a counter of 0 does not run
out of fuel with one level of nesting. -/
theorem CheckTimeWith_from_zero_not_out_of_fuel (c : Constants) (mk : Nat → Post)
    (hK : 1 ≤ c.kMaxConnectionErrorsBeforeReset) (m : ServerConnectionManager)
    (h0 : m.error_count_ = 0) :
    CheckTimeWith c mk (IncrementErrorCount c mk 1) m ≠ Except.error Fault.out_of_fuel := by
  intro h
  simp only [CheckTimeWith] at h
  split at h
  · rename_i e hloop
    simp only [Except.error.injEq] at h
    rw [h] at hloop
    exact CheckTimeLoop_not_out_of_fuel c mk _ _ _ hloop
  · simp at h
  · rename_i response1 m1 hloop
    have hm1 : m1.error_count_ = 0 := by
      rw [(CheckTimeLoop_frame c mk _ _ _ _ _ _ hloop).2.1, h0]
    rw [IncrementErrorCount_from_zero c mk hK 0 m1 hm1] at h
    simp at h

/-- An outer call of `IncrementErrorCount` makes at most the three posts of one
probe. -/
theorem IncrementErrorCount_posts (c : Constants) (mk : Nat → Post)
    (hK : 1 ≤ c.kMaxConnectionErrorsBeforeReset) (m : ServerConnectionManager) (b : Bool)
    (m1 : ServerConnectionManager)
    (h : IncrementErrorCount c mk 2 m = Except.ok (b, m1)) :
    m.posts_made ≤ m1.posts_made ∧ m1.posts_made ≤ m.posts_made + 3 := by
  rw [IncrementErrorCount] at h
  simp only at h
  split_ifs at h
  · split at h
    · simp at h
    · rename_i b2 t2 m3 hct
      simp only [Except.ok.injEq, Prod.mk.injEq] at h
      obtain ⟨-, rfl⟩ := h
      simp only [CheckTimeWith] at hct
      split at hct
      · simp at hct
      · rename_i t0 response1 m2 hloop
        simp only [Except.ok.injEq, Prod.mk.injEq] at hct
        obtain ⟨-, -, rfl⟩ := hct
        have hp := CheckTimeLoop_posts c mk _ _ _ _ _ _ hloop
        rw [destroy_posts_made]
        simp only at hp ⊢
        omega
      · rename_i response1 m2 hloop
        have hm2 : m2.error_count_ = 0 := by
          rw [(CheckTimeLoop_frame c mk _ _ _ _ _ _ hloop).2.1]
        rw [IncrementErrorCount_from_zero c mk hK 0 m2 hm2] at hct
        simp only [Except.ok.injEq, Prod.mk.injEq] at hct
        obtain ⟨-, -, rfl⟩ := hct
        have hp := CheckTimeLoop_posts c mk _ _ _ _ _ _ hloop
        rw [destroy_posts_made]
        simp only at hp ⊢
        omega
  · simp only [Except.ok.injEq, Prod.mk.injEq] at h
    obtain ⟨-, rfl⟩ := h
    simp

/-- Claim C17: with a limit of at least 1, every call of `IncrementErrorCount`
terminates, whatever the counter and whatever the posts do: two levels of
nesting are enough for every call (more fuel changes nothing and the fuel never
runs out), because the nested call, made on the counter 0 that the outer call
has set, returns true with the counter 1 without probing; so an outer call
makes at most the three posts of one probe. -/
theorem IncrementErrorCount_terminates (c : Constants) (mk : Nat → Post) (fuel : Nat)
    (m : ServerConnectionManager) (hK : 1 ≤ c.kMaxConnectionErrorsBeforeReset) :
    IncrementErrorCount c mk (fuel + 2) m = IncrementErrorCount c mk 2 m ∧
    IncrementErrorCount c mk (fuel + 2) m ≠ Except.error Fault.out_of_fuel ∧
    (∀ m0 : ServerConnectionManager, m0.error_count_ = 0 →
        IncrementErrorCount c mk (fuel + 1) m0 =
          Except.ok (true, { m0 with error_count_ := 1 })) ∧
    (∀ b m1, IncrementErrorCount c mk (fuel + 2) m = Except.ok (b, m1) →
        m.posts_made ≤ m1.posts_made ∧ m1.posts_made ≤ m.posts_made + 3) := by
  have hfuel := IncrementErrorCount_fuel c mk hK fuel m
  refine ⟨hfuel, ?_, fun m0 h0 => IncrementErrorCount_from_zero c mk hK fuel m0 h0, ?_⟩
  · rw [hfuel, IncrementErrorCount]
    simp only
    split_ifs
    · intro h
      split at h
      · rename_i e hct
        simp only [Except.error.injEq] at h
        rw [h] at hct
        exact CheckTimeWith_from_zero_not_out_of_fuel c mk hK _ rfl hct
      · simp at h
    · simp
  · intro b m1 h
    rw [hfuel] at h
    exact IncrementErrorCount_posts c mk hK m b m1 h

/-- Witness for C17: a counter at the limit of 3, while the first two posts
fail: the call resets the counter, probes once (three posts) and returns. -/
theorem IncrementErrorCount_terminates_witness :
    IncrementErrorCount exampleConstants examplePosts (5 + 2)
        ⟨3, ServerConnectionCode.NONE, false, [], 0⟩ =
      IncrementErrorCount exampleConstants examplePosts 2
        ⟨3, ServerConnectionCode.NONE, false, [], 0⟩ ∧
    IncrementErrorCount exampleConstants examplePosts 2
        ⟨3, ServerConnectionCode.NONE, false, [], 0⟩ =
      Except.ok (false, ⟨0, ServerConnectionCode.SERVER_CONNECTION_OK, false,
        [⟨ServerConnectionCode.SERVER_CONNECTION_OK, false⟩], 3⟩) :=
  ⟨(IncrementErrorCount_terminates exampleConstants examplePosts 5
      ⟨3, ServerConnectionCode.NONE, false, [], 0⟩ (by decide)).1,
   rfl⟩

/-- Without a limit of at least 1 the nesting need not end: with a limit of 0 and
a server that cannot be reached, no amount of fuel lets a call on the counter 0
return. -/
theorem IncrementErrorCount_limit_zero_diverges (fuel : Nat) :
    ∀ m : ServerConnectionManager, m.error_count_ = 0 →
      IncrementErrorCount zeroLimitConstants unreachablePosts fuel m =
        Except.error Fault.out_of_fuel := by
  induction fuel with
  | zero => intro m _; rfl
  | succ fuel ih =>
    intro m h0
    rw [IncrementErrorCount]
    simp only [h0, toInt32_one]
    rw [if_pos (by decide)]
    simp only [CheckTimeWith, CheckTimeLoop, unreachablePosts, unreachablePost]
    rw [ih _ rfl]

theorem toSizeT_of_nonneg (x : Int) (h0 : 0 ≤ x) (h1 : x < 18446744073709551616) :
    toSizeT x = x.toNat := by
  unfold toSizeT
  omega

/-- On a string that is not empty and shorter than 2^31, `StripTrailingSlash`
does not throw and removes the last character exactly when it is a slash. -/
theorem StripTrailingSlash_short (s : String) (hpos : 0 < s.length)
    (hlen : s.length < 2147483648) :
    StripTrailingSlash s =
      some (if s.data.getLast? = some '/' then ⟨s.data.dropLast⟩ else s) := by
  have hdata : s.data.length = s.length := rfl
  have h1 : toInt32 (s.length : Int) = (s.length : Int) :=
    toInt32_of_range _ (by omega) (by omega)
  have h2 : toInt32 ((s.length : Int) - 1) = (s.length : Int) - 1 :=
    toInt32_of_range _ (by omega) (by omega)
  have h3 : toSizeT ((s.length : Int) - 1) = s.length - 1 := by
    rw [toSizeT_of_nonneg _ (by omega) (by omega)]
    omega
  have h4 : toSizeT (s.length : Int) = s.length := by
    rw [toSizeT_of_nonneg _ (by omega) (by omega)]
    omega
  have hlast : s.data.getLast? = s.data[s.length - 1]? := by
    rw [List.getLast?_eq_getElem?, hdata]
  unfold StripTrailingSlash
  simp only [h1, h2, h3, h4]
  rw [← hlast]
  cases hc : s.data.getLast? with
  | none =>
    rw [List.getLast?_eq_none_iff] at hc
    rw [← hdata, hc] at hpos
    exact absurd hpos (by simp)
  | some ch =>
    simp only
    by_cases hslash : ch = '/'
    · rw [if_pos hslash, if_pos (by rw [hslash])]
      rw [List.dropLast_eq_take, hdata]
    · rw [if_neg hslash, if_neg (by simpa using hslash)]
      rw [← hdata, List.take_length]

/-- A string of 2^31 + 1 characters makes `StripTrailingSlash` throw: its size
does not fit the `int` position, which becomes negative, and `at` rejects the
index. -/
theorem StripTrailingSlash_throws (s : String) (hlen : s.length = 2147483649) :
    StripTrailingSlash s = none := by
  have hdata : s.data.length = 2147483649 := hlen
  have h1 : toInt32 ((2147483649 : Nat) : Int) = -2147483647 := by
    rw [toInt32_eq]
    omega
  have h2 : toInt32 (-2147483647 - 1) = -2147483648 := by
    rw [toInt32_eq]
    omega
  have h3 : toSizeT (-2147483648) = 18446744071562067968 := by
    unfold toSizeT
    omega
  have hnone : s.data[18446744071562067968]? = none :=
    List.getElem?_eq_none (by rw [hdata]; omega)
  unfold StripTrailingSlash
  simp only [hlen, h1, h2, h3, hnone]

/-- Without ssl, a server name that brings the url to 2^31 + 1 bytes makes
`MakeConnectionURL` throw. -/
theorem MakeConnectionURL_throws (sync_server path : String)
    (hlen : (("http://" : String) ++ sync_server).length = 2147483649) :
    MakeConnectionURL sync_server path false = none := by
  unfold MakeConnectionURL
  simp only [Bool.false_eq_true, if_false]
  rw [StripTrailingSlash_throws _ hlen]

theorem length_huge_url :
    (("http://" : String) ++ ⟨List.replicate 2147483642 'a'⟩).length = 2147483649 := by
  have h7 : ("http://" : String).length = 7 := by decide
  rw [String.length_append, String.length_mk (List.replicate 2147483642 'a'),
    List.length_replicate, h7]

/-- Claim C19, as stated, fails: for a server name of 2147483642 bytes and no
ssl, the url built so far has 2^31 + 1 bytes; its size does not fit the `int`
`stripped_end_pos`, which becomes -2147483647, and `s.at(stripped_end_pos - 1)`
throws `std::out_of_range`. -/
theorem MakeConnectionURL_huge_server_throws :
    MakeConnectionURL ⟨List.replicate 2147483642 'a'⟩ "" false = none :=
  MakeConnectionURL_throws ⟨List.replicate 2147483642 'a'⟩ "" length_huge_url

/-- Claim C19, amended: for every `sync_server` (the empty one included) for
which scheme and server together are shorter than 2^31 bytes, every path and
both values of `use_ssl`, `MakeConnectionURL` does not trigger the out-of-range
failure of `StripTrailingSlash`, whose argument starts with the scheme and so
is not empty, and its result is scheme ++ `sync_server` with one trailing
slash removed if there is one, followed by the path.  On strings shorter than
2^31 bytes `StripTrailingSlash` removes at most one character, and it throws
on the empty string. -/
theorem MakeConnectionURL_spec (sync_server path : String) (use_ssl : Bool)
    (hlen : ((if use_ssl then "https://" else "http://") ++ sync_server).length <
      2147483648) :
    0 < ((if use_ssl then "https://" else "http://") ++ sync_server).length ∧
    MakeConnectionURL sync_server path use_ssl ≠ none ∧
    MakeConnectionURL sync_server path use_ssl =
      some (connectionUrlSpec sync_server path use_ssl) ∧
    (∀ s t : String, s.length < 2147483648 → StripTrailingSlash s = some t →
        t.length ≤ s.length ∧ s.length ≤ t.length + 1 ∧ t.data <+: s.data) ∧
    StripTrailingSlash "" = none := by
  have hpos : 0 < ((if use_ssl then "https://" else "http://") ++ sync_server).length := by
    rw [String.length_append]
    cases use_ssl
    · have h7 : ("http://" : String).length = 7 := by decide
      simp only [Bool.false_eq_true, if_false, h7]
      omega
    · have h8 : ("https://" : String).length = 8 := by decide
      simp only [if_true, h8]
      omega
  have hstrip := StripTrailingSlash_short _ hpos hlen
  have hurl : MakeConnectionURL sync_server path use_ssl =
      some (connectionUrlSpec sync_server path use_ssl) := by
    unfold MakeConnectionURL connectionUrlSpec
    simp only [hstrip]
  refine ⟨hpos, by rw [hurl]; simp, hurl, ?_, by decide⟩
  intro s t hs ht
  by_cases hs0 : s.length = 0
  · have hnil : s.data = [] := List.length_eq_zero.mp hs0
    have hempty : s = "" := by
      cases s
      simp only at hnil
      rw [hnil]
    have hthrow : StripTrailingSlash "" = none := by decide
    rw [hempty, hthrow] at ht
    exact absurd ht (by simp)
  · rw [StripTrailingSlash_short s (by omega) hs] at ht
    simp only [Option.some.injEq] at ht
    rw [← ht]
    split_ifs
    · have hl : (⟨s.data.dropLast⟩ : String).length = s.length - 1 := by
        rw [String.length_mk, List.length_dropLast]
        rfl
      refine ⟨by omega, by omega, ?_⟩
      exact List.dropLast_prefix _
    · exact ⟨le_refl _, by omega, List.prefix_refl _⟩

/-- Witness for C19: the sync server of the product with a trailing slash. -/
theorem MakeConnectionURL_spec_witness :
    MakeConnectionURL "clients4.google.com/chrome-sync/" "/command/" true =
      some "https://clients4.google.com/chrome-sync/command/" ∧
    MakeConnectionURL "clients4.google.com/chrome-sync/" "/command/" true =
      some (connectionUrlSpec "clients4.google.com/chrome-sync/" "/command/" true) :=
  ⟨by decide,
   (MakeConnectionURL_spec "clients4.google.com/chrome-sync/" "/command/" true
      (by decide)).2.2.1⟩

/-! ## The time check -/

end browser_sync

namespace net

/-! ## The pending queue: cancellation -/

/-- Claim C5: `CancelPacRequest` is total; cancelling the same handle twice gives
the same service as cancelling it once; afterwards the request is not queued;
when it was not queued (already completed or removed) the service is
unchanged; and the other requests stay, in their order (the new queue is a
sublist of the old one that keeps every other request), nothing but the queue
being touched. -/
theorem CancelPacRequest_idempotent (s : ProxyService) (pac_request : Nat) :
    CancelPacRequest (CancelPacRequest s pac_request) pac_request =
        CancelPacRequest s pac_request ∧
    ContainsPendingRequest (CancelPacRequest s pac_request) pac_request = false ∧
    (ContainsPendingRequest s pac_request = false → CancelPacRequest s pac_request = s) ∧
    (CancelPacRequest s pac_request).pending_requests_.Sublist s.pending_requests_ ∧
    (∀ r ∈ s.pending_requests_, r.id ≠ pac_request →
        r ∈ (CancelPacRequest s pac_request).pending_requests_) ∧
    { CancelPacRequest s pac_request with pending_requests_ := s.pending_requests_ } = s := by
  refine ⟨?_, ?_, ?_, ?_, ?_, rfl⟩
  · simp [CancelPacRequest, RemovePendingRequest, List.filter_filter]
  · simp [CancelPacRequest, RemovePendingRequest, ContainsPendingRequest, List.any_eq_false]
  · intro h
    have hall : ∀ r ∈ s.pending_requests_, (r.id != pac_request) = true := by
      intro r hr
      simp only [ContainsPendingRequest, List.any_eq_false] at h
      have := h r hr
      simpa using this
    simp only [CancelPacRequest, RemovePendingRequest, List.filter_eq_self.mpr hall]
  · exact List.filter_sublist _
  · intro r hr hne
    simp only [CancelPacRequest, RemovePendingRequest, List.mem_filter]
    exact ⟨hr, by simpa using hne⟩

/-- Witness for C5: a queue of three requests; request 7 is not queued, so
cancelling it changes nothing. -/
theorem CancelPacRequest_idempotent_witness :
    ContainsPendingRequest
        { ProxyService.init with
          pending_requests_ := [⟨0, "http://a/", false, none⟩, ⟨1, "http://b/", false, none⟩,
                                ⟨2, "http://c/", false, none⟩]
          next_request_id := 3 } 7 = false ∧
    CancelPacRequest
        { ProxyService.init with
          pending_requests_ := [⟨0, "http://a/", false, none⟩, ⟨1, "http://b/", false, none⟩,
                                ⟨2, "http://c/", false, none⟩]
          next_request_id := 3 } 7 =
      { ProxyService.init with
        pending_requests_ := [⟨0, "http://a/", false, none⟩, ⟨1, "http://b/", false, none⟩,
                              ⟨2, "http://c/", false, none⟩]
        next_request_id := 3 } :=
  ⟨by decide,
   (CancelPacRequest_idempotent
      { ProxyService.init with
        pending_requests_ := [⟨0, "http://a/", false, none⟩, ⟨1, "http://b/", false, none⟩,
                              ⟨2, "http://c/", false, none⟩]
        next_request_id := 3 } 7).2.2.1 (by decide)⟩

/-! ## Reconfiguration -/

/-- Claim C9: in every state other than `STATE_NONE`, a configuration-change
notification whose configuration equals the held `config_` by value leaves the
whole service as it is (state, configuration, queue, callbacks run, retry
entries), and so does every sequence of such notifications. -/
theorem OnProxyConfigChanged_identical_config (s : ProxyService) (config : ProxyConfig)
    (configs : List ProxyConfig)
    (hstate : s.current_state_ ≠ State.STATE_NONE)
    (hsame : config.Equals s.config_ = true)
    (hall : ∀ c ∈ configs, c.Equals s.config_ = true) :
    OnProxyConfigChanged s config = s ∧
    configs.foldl OnProxyConfigChanged s = s ∧
    run s (configs.map Step.OnProxyConfigChanged) = s := by
  have one : ∀ c : ProxyConfig, c.Equals s.config_ = true → OnProxyConfigChanged s c = s := by
    intro c hc
    unfold OnProxyConfigChanged
    rw [if_neg hstate, if_pos hc]
  refine ⟨one config hsame, ?_, ?_⟩
  · induction configs with
    | nil => rfl
    | cons c cs ih =>
      rw [List.foldl_cons, one c (hall c (List.mem_cons_self _ _))]
      exact ih (fun d hd => hall d (List.mem_cons_of_mem _ hd))
  · induction configs with
    | nil => rfl
    | cons c cs ih =>
      have hc : step s (Step.OnProxyConfigChanged c) = s := one c (hall c (List.mem_cons_self _ _))
      simp only [run, List.map_cons, List.foldl_cons, hc]
      exact ih (fun d hd => hall d (List.mem_cons_of_mem _ hd))

/-- Witness for C9: a ready service holding a PAC configuration is told twice
about a configuration with the same content (and another identifier). -/
theorem OnProxyConfigChanged_identical_config_witness :
    run { ProxyService.init with
          config_ := ⟨1, ProxyConfigSource.pac_url "http://wpad/proxy.pac"⟩
          next_config_id_ := 2
          should_use_proxy_resolver_ := true
          current_state_ := State.STATE_READY }
        ([⟨0, ProxyConfigSource.pac_url "http://wpad/proxy.pac"⟩,
          ⟨5, ProxyConfigSource.pac_url "http://wpad/proxy.pac"⟩].map
            Step.OnProxyConfigChanged) =
      { ProxyService.init with
        config_ := ⟨1, ProxyConfigSource.pac_url "http://wpad/proxy.pac"⟩
        next_config_id_ := 2
        should_use_proxy_resolver_ := true
        current_state_ := State.STATE_READY } :=
  (OnProxyConfigChanged_identical_config
    { ProxyService.init with
      config_ := ⟨1, ProxyConfigSource.pac_url "http://wpad/proxy.pac"⟩
      next_config_id_ := 2
      should_use_proxy_resolver_ := true
      current_state_ := State.STATE_READY }
    ⟨0, ProxyConfigSource.pac_url "http://wpad/proxy.pac"⟩
    [⟨0, ProxyConfigSource.pac_url "http://wpad/proxy.pac"⟩,
     ⟨5, ProxyConfigSource.pac_url "http://wpad/proxy.pac"⟩]
    (by decide) (by decide) (by decide)).2.2

theorem SetReady_retry_info (s : ProxyService) :
    (SetReady s).proxy_retry_info_ = s.proxy_retry_info_ := by
  unfold SetReady ResumeAllPendingRequests
  simp only
  split_ifs <;> rfl

/-- Every step but the fallback after a failed proxy leaves the retry registry
as it is. -/
theorem step_retry_info (s : ProxyService) (st : Step) (h : st.marksBad = false) :
    (step s st).proxy_retry_info_ = s.proxy_retry_info_ := by
  cases st with
  | ResolveProxy url =>
    simp only [step, ResolveProxy]
    split_ifs <;> rfl
  | ReconsiderProxyAfterError url results reconsider_after => simp [Step.marksBad] at h
  | CancelPacRequest pac_request => rfl
  | ForceReloadProxyConfig => rfl
  | OnIPAddressChanged => rfl
  | OnProxyConfigChanged config =>
    simp only [step, OnProxyConfigChanged]
    split_ifs <;> rfl
  | OnConfigAvailable source =>
    simp only [step, OnConfigAvailable]
    split_ifs
    · rfl
    · exact SetReady_retry_info _
    · rfl
  | OnInitProxyResolverComplete success =>
    simp only [step, OnInitProxyResolverComplete]
    split_ifs
    · exact SetReady_retry_info _
    · rfl
  | OnResolverComplete req answer =>
    simp only [step, OnResolverComplete]
    split_ifs
    · split <;> rfl
    · rfl
  | TimePasses dt => rfl

theorem run_retry_info (steps : List Step) :
    ∀ s : ProxyService, (∀ st ∈ steps, st.marksBad = false) →
      (run s steps).proxy_retry_info_ = s.proxy_retry_info_ := by
  induction steps with
  | nil => intro s _; rfl
  | cons st rest ih =>
    intro s h
    have h1 := step_retry_info s st (h st (List.mem_cons_self _ _))
    have h2 := ih (step s st) (fun x hx => h x (List.mem_cons_of_mem _ hx))
    exact h2.trans h1

/-- Claim C10: `ForceReloadProxyConfig`, and the `ResetProxyConfig` it performs,
leave `proxy_retry_info()` as it was (so every proxy is as bad as before),
while the identifier of the held configuration becomes `INVALID_ID`, the reset
passes through `STATE_NONE` and the reload ends in
`STATE_WAITING_FOR_PROXY_CONFIG`; and the bad-proxy memory also survives the
reconfiguration that follows (the arrival of the configuration, the
initialisation of the resolver, the resumption and completion of requests): it
is only written when a proxy is marked bad after an error. -/
theorem ForceReloadProxyConfig_keeps_retry_info (s : ProxyService) (steps : List Step)
    (hsteps : ∀ st ∈ steps, st.marksBad = false) :
    proxy_retry_info (ResetProxyConfig s).2 = proxy_retry_info s ∧
    proxy_retry_info (ForceReloadProxyConfig s) = proxy_retry_info s ∧
    (∀ now proxy, is_bad (proxy_retry_info (ForceReloadProxyConfig s)) now proxy =
        is_bad (proxy_retry_info s) now proxy) ∧
    (ForceReloadProxyConfig s).config_.id = ProxyConfig.INVALID_ID ∧
    config_has_been_initialized (ForceReloadProxyConfig s) = false ∧
    (ResetProxyConfig s).1 = s.current_state_ ∧
    (ResetProxyConfig s).2.current_state_ = State.STATE_NONE ∧
    (ForceReloadProxyConfig s).current_state_ = State.STATE_WAITING_FOR_PROXY_CONFIG ∧
    proxy_retry_info (run (ForceReloadProxyConfig s) steps) = proxy_retry_info s :=
  ⟨rfl, rfl, fun _ _ => rfl, rfl, rfl, rfl, rfl, rfl,
   run_retry_info steps (ForceReloadProxyConfig s) hsteps⟩

/-- Witness for C10: a ready service that remembers `proxy1:80` as bad is
reloaded, gets a direct configuration and resolves a url. -/
theorem ForceReloadProxyConfig_keeps_retry_info_witness :
    proxy_retry_info
        (run (ForceReloadProxyConfig
              { ProxyService.init with
                config_ := ⟨1, ProxyConfigSource.manual_rules ["proxy1:80", "proxy2:80"]⟩
                next_config_id_ := 2
                proxy_retry_info_ := [("proxy1:80", ⟨300, 1⟩)]
                current_state_ := State.STATE_READY })
          [Step.OnConfigAvailable ProxyConfigSource.direct,
           Step.ResolveProxy "http://a/"]) = [("proxy1:80", ⟨300, 1⟩)] :=
  (ForceReloadProxyConfig_keeps_retry_info
    { ProxyService.init with
      config_ := ⟨1, ProxyConfigSource.manual_rules ["proxy1:80", "proxy2:80"]⟩
      next_config_id_ := 2
      proxy_retry_info_ := [("proxy1:80", ⟨300, 1⟩)]
      current_state_ := State.STATE_READY }
    [Step.OnConfigAvailable ProxyConfigSource.direct, Step.ResolveProxy "http://a/"]
    (by decide)).2.2.2.2.2.2.2.2

/-! ## How the steps move the handles -/

theorem pendingHandles_suspend (s : ProxyService) :
    pendingHandles (SuspendAllPendingRequests s) = pendingHandles s := by
  simp [pendingHandles, SuspendAllPendingRequests, List.map_map, Function.comp_def]

theorem pendingHandles_remove (s : ProxyService) (req : Nat) :
    pendingHandles (RemovePendingRequest s req) =
      (pendingHandles s).filter (fun x => x != req) := by
  simp [RemovePendingRequest, pendingHandles, List.filter_map, Function.comp_def]

theorem HandlesStep_refl (s t : ProxyService)
    (hc : completedHandles t = completedHandles s)
    (hp : pendingHandles t = pendingHandles s)
    (hn : t.next_request_id = s.next_request_id) : HandlesStepInOrder s t :=
  Or.inl ⟨by rw [hc, hp], hn, [], by rw [hc, List.append_nil]⟩

theorem HandlesStep_reset (s : ProxyService) : HandlesStepInOrder s (ResetProxyConfig s).2 :=
  HandlesStep_refl _ _ rfl (pendingHandles_suspend s) rfl

theorem HandlesStep_reload (s : ProxyService) :
    HandlesStepInOrder s (ForceReloadProxyConfig s) :=
  HandlesStep_refl _ _ rfl (pendingHandles_suspend s) rfl

theorem HandlesStep_SetReady (s t : ProxyService)
    (hc : completedHandles t = completedHandles s)
    (hp : pendingHandles t = pendingHandles s)
    (hn : t.next_request_id = s.next_request_id) : HandlesStepInOrder s (SetReady t) := by
  unfold SetReady ResumeAllPendingRequests
  simp only
  split_ifs
  · refine HandlesStep_refl _ _ hc ?_ hn
    rw [← hp]
    simp [pendingHandles, List.map_map, Function.comp_def]
  · refine Or.inl ⟨?_, hn, pendingHandles s, ?_⟩
    · rw [← hc, ← hp]
      simp [completedHandles, pendingHandles, completionOf, List.map_map, Function.comp_def]
    · rw [← hc, ← hp]
      simp [completedHandles, pendingHandles, completionOf, List.map_map, Function.comp_def]

/-- What an answer of the resolver does to the handles: nothing, or the handle
it is for moves from the queue to the end of the log of callbacks. -/
theorem OnResolverComplete_handles (s : ProxyService) (req : Nat)
    (answer : Option (List ProxyServer)) :
    OnResolverComplete s req answer = s ∨
    (req ∈ pendingHandles s ∧
      completedHandles (OnResolverComplete s req answer) = completedHandles s ++ [req] ∧
      pendingHandles (OnResolverComplete s req answer) =
        (pendingHandles s).filter (fun x => x != req) ∧
      (OnResolverComplete s req answer).next_request_id = s.next_request_id) := by
  unfold OnResolverComplete
  split_ifs
  · split
    · exact Or.inl rfl
    · rename_i r hfind
      right
      have hmem := List.mem_of_find?_eq_some hfind
      have hprop := List.find?_some hfind
      simp only [Bool.and_eq_true, beq_iff_eq] at hprop
      refine ⟨?_, ?_, ?_, rfl⟩
      · rw [← hprop.1]
        exact List.mem_map.mpr ⟨r, hmem, rfl⟩
      · cases answer <;> simp [completedHandles, completionOf, hprop.1]
      · exact pendingHandles_remove s req
  · exact Or.inl rfl

theorem HandlesStep_of_inOrder (s t : ProxyService) (h : HandlesStepInOrder s t) :
    HandlesStep s t := by
  rcases h with h | h | h
  · exact Or.inl h
  · exact Or.inr (Or.inl h)
  · exact Or.inr (Or.inr (Or.inl h))

theorem HandlesStep_OnResolverComplete (s : ProxyService) (req : Nat)
    (answer : Option (List ProxyServer)) : HandlesStep s (OnResolverComplete s req answer) := by
  rcases OnResolverComplete_handles s req answer with h | ⟨h1, h2, h3, h4⟩
  · rw [h]
    exact HandlesStep_of_inOrder _ _ (HandlesStep_refl _ _ rfl rfl rfl)
  · exact Or.inr (Or.inr (Or.inr ⟨req, h1, h2, h3, h4⟩))

theorem HandlesStep_ResolveProxy (s : ProxyService) (url : GURL) :
    HandlesStepInOrder s (ResolveProxy s url).service := by
  unfold ResolveProxy
  simp only
  split_ifs
  · exact HandlesStep_refl _ _ rfl rfl rfl
  · exact Or.inr (Or.inl ⟨rfl, by simp [pendingHandles, ApplyProxyConfigIfAvailable], rfl⟩)
  · exact HandlesStep_refl _ _ rfl rfl rfl
  · exact Or.inr (Or.inl ⟨rfl, by simp [pendingHandles], rfl⟩)

theorem HandlesStep_ReconsiderProxyAfterError (s : ProxyService) (url : GURL)
    (results : ProxyInfo) (reconsider_after : Nat) :
    HandlesStepInOrder s (ReconsiderProxyAfterError s url results reconsider_after).service := by
  unfold ReconsiderProxyAfterError
  split
  · exact HandlesStep_refl _ _ rfl rfl rfl
  · simp only
    split_ifs
    · exact HandlesStep_refl _ _ rfl rfl rfl
    · exact Or.inr (Or.inl ⟨rfl, by simp [pendingHandles, ApplyProxyConfigIfAvailable], rfl⟩)
    · exact HandlesStep_refl _ _ rfl rfl rfl
    · exact Or.inr (Or.inl ⟨rfl, by simp [pendingHandles], rfl⟩)

/-- A step that is not an answer of the resolver moves the handles in one of
the three ways of `HandlesStepInOrder`. -/
theorem HandlesStepInOrder_step (s : ProxyService) (st : Step)
    (hst : ∀ req answer, st ≠ Step.OnResolverComplete req answer) :
    HandlesStepInOrder s (step s st) := by
  cases st with
  | ResolveProxy url => exact HandlesStep_ResolveProxy s url
  | ReconsiderProxyAfterError url results reconsider_after =>
    exact HandlesStep_ReconsiderProxyAfterError s url results reconsider_after
  | CancelPacRequest pac_request =>
    exact Or.inr (Or.inr ⟨pac_request, rfl, pendingHandles_remove s pac_request, rfl⟩)
  | ForceReloadProxyConfig => exact HandlesStep_reload s
  | OnIPAddressChanged => exact HandlesStep_reload s
  | OnProxyConfigChanged config =>
    simp only [step, OnProxyConfigChanged]
    split_ifs
    · exact HandlesStep_refl _ _ rfl rfl rfl
    · exact HandlesStep_refl _ _ rfl rfl rfl
    · exact HandlesStep_reload s
  | OnConfigAvailable source =>
    simp only [step, OnConfigAvailable]
    split_ifs
    · exact HandlesStep_refl _ _ rfl rfl rfl
    · exact HandlesStep_SetReady _ _ rfl rfl rfl
    · exact HandlesStep_refl _ _ rfl rfl rfl
  | OnInitProxyResolverComplete success =>
    simp only [step, OnInitProxyResolverComplete]
    split_ifs
    · exact HandlesStep_SetReady _ _ rfl rfl rfl
    · exact HandlesStep_refl _ _ rfl rfl rfl
  | OnResolverComplete req answer => exact absurd rfl (hst req answer)
  | TimePasses dt => exact HandlesStep_refl _ _ rfl rfl rfl

/-- Every step moves the handles in one of the four ways of `HandlesStep`. -/
theorem HandlesStep_step (s : ProxyService) (st : Step) : HandlesStep s (step s st) := by
  by_cases hst : ∃ req answer, st = Step.OnResolverComplete req answer
  · obtain ⟨req, answer, rfl⟩ := hst
    exact HandlesStep_OnResolverComplete s req answer
  · exact HandlesStep_of_inOrder _ _
      (HandlesStepInOrder_step s st (fun req answer h => hst ⟨req, answer, h⟩))

theorem HandlesFresh_init : HandlesFresh ProxyService.init := by
  simp [HandlesFresh, completedHandles, pendingHandles, ProxyService.init]

/-- Moving one member of the second list to the end of the first keeps the
members distinct. -/
theorem nodup_move (l1 l2 : List Nat) (h : Nat) (hn : (l1 ++ l2).Nodup) (hmem : h ∈ l2) :
    (l1 ++ [h] ++ l2.filter (fun x => x != h)).Nodup := by
  rw [List.nodup_append] at hn
  obtain ⟨hn1, hn2, hdis⟩ := hn
  rw [List.append_assoc, List.nodup_append]
  refine ⟨hn1, ?_, ?_⟩
  · rw [List.singleton_append, List.nodup_cons]
    refine ⟨?_, hn2.filter _⟩
    simp
  · intro a ha1 ha2
    rw [List.singleton_append, List.mem_cons] at ha2
    rcases ha2 with rfl | ha2
    · exact hdis ha1 hmem
    · exact hdis ha1 (List.mem_of_mem_filter ha2)

theorem HandlesFresh_of_step (s t : ProxyService) (hs : HandlesFresh s)
    (hst : HandlesStep s t) : HandlesFresh t := by
  obtain ⟨hnodup, hbound⟩ := hs
  rcases hst with ⟨hcat, hn, -⟩ | ⟨hc, hp, hn⟩ | ⟨h, hc, hp, hn⟩ | ⟨h, hmem, hc, hp, hn⟩
  · exact ⟨by rw [hcat]; exact hnodup, by rw [hcat, hn]; exact hbound⟩
  · refine ⟨?_, ?_⟩
    · rw [hc, hp, ← List.append_assoc, List.nodup_append]
      refine ⟨hnodup, List.nodup_singleton _, ?_⟩
      intro a ha hb
      rw [List.mem_singleton] at hb
      have := hbound a ha
      omega
    · intro x hx
      rw [hc, hp, ← List.append_assoc, List.mem_append, List.mem_singleton] at hx
      rw [hn]
      rcases hx with hx | hx
      · exact Nat.lt_succ_of_lt (hbound x hx)
      · rw [hx]; exact Nat.lt_succ_self _
  · have hsub : (completedHandles t ++ pendingHandles t).Sublist
        (completedHandles s ++ pendingHandles s) := by
      rw [hc, hp]
      exact List.Sublist.append (List.Sublist.refl _) (List.filter_sublist _)
    exact ⟨hnodup.sublist hsub, by
      intro x hx
      rw [hn]
      exact hbound x (hsub.subset hx)⟩
  · refine ⟨?_, ?_⟩
    · rw [hc, hp]
      exact nodup_move _ _ h hnodup hmem
    · intro x hx
      rw [hn]
      rw [hc, hp, List.append_assoc, List.mem_append, List.mem_append, List.mem_singleton] at hx
      rcases hx with hx | rfl | hx
      · exact hbound x (List.mem_append_left _ hx)
      · exact hbound x (List.mem_append_right _ hmem)
      · exact hbound x (List.mem_append_right _ (List.mem_of_mem_filter hx))

/-- In every run the handles stay distinct. -/
theorem HandlesFresh_run (steps : List Step) :
    ∀ s : ProxyService, HandlesFresh s → HandlesFresh (run s steps) := by
  induction steps with
  | nil => intro s hs; exact hs
  | cons st rest ih =>
    intro s hs
    exact ih (step s st) (HandlesFresh_of_step s _ hs (HandlesStep_step s st))

/-- A handle that is below the next handle and neither queued nor completed
stays so under every step. -/
theorem absent_of_step (s t : ProxyService) (h : Nat) (hst : HandlesStep s t)
    (habs : h ∉ completedHandles s ++ pendingHandles s) (hlt : h < s.next_request_id) :
    h ∉ completedHandles t ++ pendingHandles t ∧ h < t.next_request_id := by
  rcases hst with ⟨hcat, hn, -⟩ | ⟨hc, hp, hn⟩ | ⟨x, hc, hp, hn⟩ | ⟨x, hmem, hc, hp, hn⟩
  · exact ⟨by rw [hcat]; exact habs, by rw [hn]; exact hlt⟩
  · refine ⟨?_, by rw [hn]; exact Nat.lt_succ_of_lt hlt⟩
    rw [hc, hp, ← List.append_assoc, List.mem_append, List.mem_singleton]
    rintro (hmem | heq)
    · exact habs hmem
    · exact absurd heq (Nat.ne_of_lt hlt)
  · refine ⟨?_, by rw [hn]; exact hlt⟩
    rw [hc, hp]
    intro hmem
    apply habs
    rw [List.mem_append] at hmem ⊢
    rcases hmem with hmem | hmem
    · exact Or.inl hmem
    · exact Or.inr (List.mem_of_mem_filter hmem)
  · refine ⟨?_, by rw [hn]; exact hlt⟩
    rw [hc, hp, List.append_assoc, List.mem_append, List.mem_append, List.mem_singleton]
    rintro (hm | rfl | hm)
    · exact habs (List.mem_append_left _ hm)
    · exact habs (List.mem_append_right _ hmem)
    · exact habs (List.mem_append_right _ (List.mem_of_mem_filter hm))

theorem absent_of_run (steps : List Step) (h : Nat) :
    ∀ s : ProxyService, h ∉ completedHandles s ++ pendingHandles s → h < s.next_request_id →
      h ∉ completedHandles (run s steps) ++ pendingHandles (run s steps) := by
  induction steps with
  | nil => intro s habs _; exact habs
  | cons st rest ih =>
    intro s habs hlt
    have hnext := absent_of_step s (step s st) h (HandlesStep_step s st) habs hlt
    exact ih (step s st) hnext.1 hnext.2

/-- Claim C6: take any reachable state of the service and any request that is
pending in it (its callback has not been run); once `CancelPacRequest` has been
called on it, whatever steps follow (resumption by `SetReady` through the
arrival of a configuration or the end of the resolver initialisation, answers
of the resolver, reconfiguration, new and cancelled requests), the completion
callback of that request is never run, and the request is never queued again. -/
theorem cancelled_request_never_completes (before after : List Step) (pac_request : Nat)
    (hpending : pac_request ∈ pendingHandles (run ProxyService.init before)) :
    pac_request ∉ completedHandles (run ProxyService.init before) ∧
    (∀ c ∈ (run (CancelPacRequest (run ProxyService.init before) pac_request) after).completed,
        c.request ≠ pac_request) ∧
    pac_request ∉
      pendingHandles (run (CancelPacRequest (run ProxyService.init before) pac_request) after) := by
  have hfresh := HandlesFresh_run before ProxyService.init HandlesFresh_init
  obtain ⟨hnodup, hbound⟩ := hfresh
  have hlt : pac_request < (run ProxyService.init before).next_request_id :=
    hbound _ (List.mem_append_right _ hpending)
  have hnotc : pac_request ∉ completedHandles (run ProxyService.init before) := by
    intro hc
    rw [List.nodup_append] at hnodup
    exact hnodup.2.2 hc hpending
  have hcancel : pac_request ∉
      completedHandles (CancelPacRequest (run ProxyService.init before) pac_request) ++
        pendingHandles (CancelPacRequest (run ProxyService.init before) pac_request) := by
    rw [List.mem_append]
    rintro (hc | hp)
    · exact hnotc hc
    · simp only [pendingHandles, CancelPacRequest, RemovePendingRequest, List.mem_map,
        List.mem_filter] at hp
      obtain ⟨a, ⟨-, hne⟩, heq⟩ := hp
      simp [heq] at hne
  have hrun := absent_of_run after pac_request _ hcancel hlt
  rw [List.mem_append, not_or] at hrun
  refine ⟨hnotc, ?_, hrun.2⟩
  intro c hc heq
  apply hrun.1
  exact List.mem_map.mpr ⟨c, hc, heq⟩

/-- Witness for C6: two requests are queued while the configuration is awaited,
the first is cancelled, then a direct configuration arrives and the service
becomes ready. -/
theorem cancelled_request_never_completes_witness :
    0 ∈ pendingHandles
        (run ProxyService.init [Step.ResolveProxy "http://a/", Step.ResolveProxy "http://b/"]) ∧
    (∀ c ∈ (run (CancelPacRequest
                (run ProxyService.init
                  [Step.ResolveProxy "http://a/", Step.ResolveProxy "http://b/"]) 0)
              [Step.OnConfigAvailable ProxyConfigSource.direct]).completed,
        c.request ≠ 0) ∧
    completedHandles
        (run (CancelPacRequest
                (run ProxyService.init
                  [Step.ResolveProxy "http://a/", Step.ResolveProxy "http://b/"]) 0)
              [Step.OnConfigAvailable ProxyConfigSource.direct]) = [1] :=
  ⟨by decide,
   (cancelled_request_never_completes
      [Step.ResolveProxy "http://a/", Step.ResolveProxy "http://b/"]
      [Step.OnConfigAvailable ProxyConfigSource.direct] 0 (by decide)).2.1,
   by decide⟩

/-! ## Queueing and resumption -/

/-- What `SetReady` does: the state is `READY` and the suspended requests are
resumed in queue order; with the resolver in use the queue is kept, every
request being sent to the resolver; without it every queued request completes,
in queue order. -/
theorem SetReady_spec (s : ProxyService) :
    (SetReady s).current_state_ = State.STATE_READY ∧
    (SetReady s).should_use_proxy_resolver_ = s.should_use_proxy_resolver_ ∧
    (SetReady s).resumed = s.resumed ++ stalledHandles s ∧
    (s.should_use_proxy_resolver_ = true →
      pendingHandles (SetReady s) = pendingHandles s ∧
      completedHandles (SetReady s) = completedHandles s ∧
      ∀ r ∈ (SetReady s).pending_requests_, r.is_started = true) ∧
    (s.should_use_proxy_resolver_ = false →
      (SetReady s).pending_requests_ = [] ∧
      completedHandles (SetReady s) = completedHandles s ++ pendingHandles s) := by
  unfold SetReady ResumeAllPendingRequests
  simp only
  cases hres : s.should_use_proxy_resolver_
  · simp [completedHandles, pendingHandles, completionOf, stalledHandles, List.map_map,
      Function.comp_def]
  · simp [completedHandles, pendingHandles, stalledHandles, List.map_map, Function.comp_def]

/-! ### Suspended requests -/

/-- The first scenario: the configuration identifier starts invalid, the first
`ResolveProxy` is pending and moves the service to
`STATE_WAITING_FOR_PROXY_CONFIG`; a direct configuration then takes it straight
to `STATE_READY` and the pending request resolves to direct. -/
theorem scenario_direct_configuration :
    config_has_been_initialized ProxyService.init = false ∧
    (ResolveProxy ProxyService.init "http://example.com").code = NetError.ERR_IO_PENDING ∧
    (ResolveProxy ProxyService.init "http://example.com").service.current_state_ =
      State.STATE_WAITING_FOR_PROXY_CONFIG ∧
    (run ProxyService.init
        [Step.ResolveProxy "http://example.com",
         Step.OnConfigAvailable ProxyConfigSource.direct]).current_state_ = State.STATE_READY ∧
    (run ProxyService.init
        [Step.ResolveProxy "http://example.com",
         Step.OnConfigAvailable ProxyConfigSource.direct]).completed =
      [⟨0, NetError.OK, ⟨[]⟩⟩] := by
  decide

/-- The scenario of two requests: both are queued while the resolver is
initialised; the initialisation succeeds and the resolver answers them; both
complete, the one enqueued first first. -/
theorem scenario_two_requests :
    completedHandles
        (run ProxyService.init
          [Step.ResolveProxy "http://a/",
           Step.OnConfigAvailable (ProxyConfigSource.pac_url "http://wpad/proxy.pac"),
           Step.CancelPacRequest 0,
           Step.ResolveProxy "http://b/", Step.ResolveProxy "http://c/",
           Step.OnInitProxyResolverComplete true,
           Step.OnResolverComplete 1 (some ["proxy1:80"]),
           Step.OnResolverComplete 2 (some ["proxy1:80"])]) = [1, 2] := by
  decide

/-- A resolver that runs its calls concurrently may answer a later call first;
the answer completes the request it is for. -/
theorem scenario_concurrent_resolver :
    answersInOrder ProxyService.init
        [Step.ResolveProxy "http://a/",
         Step.OnConfigAvailable (ProxyConfigSource.pac_url "http://wpad/proxy.pac"),
         Step.ResolveProxy "http://b/",
         Step.OnInitProxyResolverComplete true,
         Step.OnResolverComplete 1 (some ["proxy1:80"])] = false ∧
    (run ProxyService.init
        [Step.ResolveProxy "http://a/",
         Step.OnConfigAvailable (ProxyConfigSource.pac_url "http://wpad/proxy.pac"),
         Step.ResolveProxy "http://b/",
         Step.OnInitProxyResolverComplete true,
         Step.OnResolverComplete 1 (some ["proxy1:80"])]).completed =
      [⟨1, NetError.OK, ⟨["proxy1:80"]⟩⟩] ∧
    pendingHandles
      (run ProxyService.init
        [Step.ResolveProxy "http://a/",
         Step.OnConfigAvailable (ProxyConfigSource.pac_url "http://wpad/proxy.pac"),
         Step.ResolveProxy "http://b/",
         Step.OnInitProxyResolverComplete true,
         Step.OnResolverComplete 1 (some ["proxy1:80"])]) = [0] := by
  decide

/-- The last scenario: a network change while ready with no pending request
resets the service and asks for the configuration again. -/
theorem scenario_network_change :
    (ResetProxyConfig
        (run ProxyService.init
          [Step.ResolveProxy "http://example.com",
           Step.OnConfigAvailable ProxyConfigSource.direct])).2.current_state_ =
      State.STATE_NONE ∧
    (run ProxyService.init
        [Step.ResolveProxy "http://example.com",
         Step.OnConfigAvailable ProxyConfigSource.direct,
         Step.OnIPAddressChanged]).current_state_ = State.STATE_WAITING_FOR_PROXY_CONFIG ∧
    (run ProxyService.init
        [Step.ResolveProxy "http://example.com",
         Step.OnConfigAvailable ProxyConfigSource.direct,
         Step.OnIPAddressChanged]).completed = [⟨0, NetError.OK, ⟨[]⟩⟩] := by
  decide

/-! ## Falling back after a failed proxy -/

/-- Claim C12: whatever the bad-proxy map holds, after `ClearBadProxiesCache()`
the map returned by `proxy_retry_info()` is empty: no proxy has a retry entry,
no proxy is bad at any time, cleaning a result leaves it as it is, and nothing
but the map was touched. -/
theorem ClearBadProxiesCache_empties (s : ProxyService) :
    proxy_retry_info (ClearBadProxiesCache s) = [] ∧
    (∀ (proxy : ProxyServer), ∀ e ∈ proxy_retry_info (ClearBadProxiesCache s), e.1 ≠ proxy) ∧
    (∀ (now : Nat) (proxy : ProxyServer),
        is_bad (proxy_retry_info (ClearBadProxiesCache s)) now proxy = false) ∧
    (∀ (now : Nat) (result : ProxyInfo),
        DeprioritizeBadProxies (proxy_retry_info (ClearBadProxiesCache s)) now result = result) ∧
    { ClearBadProxiesCache s with proxy_retry_info_ := s.proxy_retry_info_ } = s := by
  refine ⟨rfl, ?_, fun _ _ => rfl, ?_, rfl⟩
  · intro proxy e he
    exact absurd he (List.not_mem_nil e)
  · intro now result
    simp [DeprioritizeBadProxies, proxy_retry_info, ClearBadProxiesCache, is_bad]

/-! ## The held configuration -/

theorem ConfigMatchesState_init : ConfigMatchesState ProxyService.init := by
  simp [ConfigMatchesState, ProxyService.init, ProxyConfig.empty]

theorem ConfigMatchesState_congr (s t : ProxyService)
    (h1 : t.next_config_id_ = s.next_config_id_) (h2 : t.current_state_ = s.current_state_)
    (h3 : t.config_ = s.config_) (hs : ConfigMatchesState s) : ConfigMatchesState t := by
  unfold ConfigMatchesState at hs ⊢
  rw [h1, h2, h3]
  exact hs

theorem ConfigMatchesState_reload (s : ProxyService) (hs : ConfigMatchesState s) :
    ConfigMatchesState (ForceReloadProxyConfig s) := by
  refine ⟨hs.1, fun _ => rfl, ?_⟩
  intro h
  simp [ForceReloadProxyConfig, ApplyProxyConfigIfAvailable] at h

theorem ConfigMatchesState_SetReady (s : ProxyService) (hnext : 1 ≤ s.next_config_id_)
    (hid : 1 ≤ s.config_.id) : ConfigMatchesState (SetReady s) := by
  have hstate : (SetReady s).current_state_ = State.STATE_READY := (SetReady_spec s).1
  have hcfg : (SetReady s).config_ = s.config_ ∧
      (SetReady s).next_config_id_ = s.next_config_id_ := by
    unfold SetReady ResumeAllPendingRequests
    simp only
    split_ifs <;> exact ⟨rfl, rfl⟩
  refine ⟨by rw [hcfg.2]; exact hnext, ?_, fun _ => by rw [hcfg.1]; exact hid⟩
  intro h
  rw [hstate] at h
  simp at h

/-- Every step keeps the held configuration and the state in agreement. -/
theorem ConfigMatchesState_step (s : ProxyService) (st : Step) (hs : ConfigMatchesState s) :
    ConfigMatchesState (step s st) := by
  cases st with
  | ResolveProxy url =>
    by_cases hn : s.current_state_ = State.STATE_NONE
    · have hwait : ConfigMatchesState (ApplyProxyConfigIfAvailable s) := by
        refine ⟨hs.1, fun _ => hs.2.1 (Or.inl hn), ?_⟩
        intro h
        simp [ApplyProxyConfigIfAvailable] at h
      simp only [step, ResolveProxy, hn, if_true]
      split_ifs
      · exact hwait
      · exact ConfigMatchesState_congr _ _ rfl rfl rfl hwait
    · simp only [step, ResolveProxy, hn, if_false]
      split_ifs
      · exact hs
      · exact ConfigMatchesState_congr _ _ rfl rfl rfl hs
  | ReconsiderProxyAfterError url results reconsider_after =>
    simp only [step, ReconsiderProxyAfterError]
    split
    · exact hs
    · rename_i first rest hres
      have hs0 : ConfigMatchesState { s with
          proxy_retry_info_ := mark_bad s.proxy_retry_info_ s.now reconsider_after first } :=
        ConfigMatchesState_congr _ _ rfl rfl rfl hs
      have hwait : s.current_state_ = State.STATE_NONE →
          ConfigMatchesState (ApplyProxyConfigIfAvailable { s with
            proxy_retry_info_ :=
              mark_bad s.proxy_retry_info_ s.now reconsider_after first }) := by
        intro hn
        refine ⟨hs.1, fun _ => hs.2.1 (Or.inl hn), ?_⟩
        intro h
        simp [ApplyProxyConfigIfAvailable] at h
      split_ifs with hn hsync hsync
      · exact hwait hn
      · exact ConfigMatchesState_congr _ _ rfl rfl rfl (hwait hn)
      · exact hs0
      · exact ConfigMatchesState_congr _ _ rfl rfl rfl hs0
  | CancelPacRequest pac_request => exact ConfigMatchesState_congr _ _ rfl rfl rfl hs
  | ForceReloadProxyConfig => exact ConfigMatchesState_reload s hs
  | OnIPAddressChanged => exact ConfigMatchesState_reload s hs
  | OnProxyConfigChanged config =>
    simp only [step, OnProxyConfigChanged]
    split_ifs
    · exact hs
    · exact hs
    · exact ConfigMatchesState_reload s hs
  | OnConfigAvailable source =>
    simp only [step, OnConfigAvailable]
    split_ifs
    · refine ⟨by have := hs.1; simp only; omega, ?_, fun _ => hs.1⟩
      intro h
      simp at h
    · exact ConfigMatchesState_SetReady _ (by have := hs.1; simp only; omega) hs.1
    · exact hs
  | OnInitProxyResolverComplete success =>
    simp only [step, OnInitProxyResolverComplete]
    split_ifs with h
    · exact ConfigMatchesState_SetReady _ hs.1 (hs.2.2 (Or.inl h))
    · exact hs
  | OnResolverComplete req answer =>
    simp only [step, OnResolverComplete]
    split_ifs
    · split
      · exact hs
      · exact ConfigMatchesState_congr _ _ rfl rfl rfl hs
    · exact hs
  | TimePasses dt => exact ConfigMatchesState_congr _ _ rfl rfl rfl hs

theorem ConfigMatchesState_run (steps : List Step) :
    ∀ s : ProxyService, ConfigMatchesState s → ConfigMatchesState (run s steps) := by
  induction steps with
  | nil => intro s hs; exact hs
  | cons st rest ih =>
    intro s hs
    exact ih (step s st) (ConfigMatchesState_step s st hs)

/-- Claim C13: `config_has_been_initialized()` is true exactly when the
identifier of the held configuration differs from `ProxyConfig::INVALID_ID`; a
newly constructed service, which has never applied a configuration, reports
false, and in every run of the service it reports true exactly while a
configuration is applied (states `STATE_WAITING_FOR_INIT_PROXY_RESOLVER` and
`STATE_READY`). -/
theorem config_has_been_initialized_iff (s : ProxyService) :
    (config_has_been_initialized s = true ↔ s.config_.id ≠ ProxyConfig.INVALID_ID) ∧
    (s.config_.id = ProxyConfig.INVALID_ID → config_has_been_initialized s = false) ∧
    config_has_been_initialized ProxyService.init = false ∧
    (∀ steps : List Step,
        config_has_been_initialized (run ProxyService.init steps) = true ↔
          ((run ProxyService.init steps).current_state_ =
              State.STATE_WAITING_FOR_INIT_PROXY_RESOLVER ∨
            (run ProxyService.init steps).current_state_ = State.STATE_READY)) := by
  refine ⟨by simp [config_has_been_initialized], ?_, rfl, ?_⟩
  · intro h
    simp [config_has_been_initialized, h]
  · intro steps
    have hinv := ConfigMatchesState_run steps ProxyService.init ConfigMatchesState_init
    simp only [config_has_been_initialized, decide_eq_true_eq]
    constructor
    · intro hid
      cases hstate : (run ProxyService.init steps).current_state_ with
      | STATE_NONE => exact absurd (hinv.2.1 (Or.inl hstate)) hid
      | STATE_WAITING_FOR_PROXY_CONFIG => exact absurd (hinv.2.1 (Or.inr hstate)) hid
      | STATE_WAITING_FOR_INIT_PROXY_RESOLVER => exact Or.inl rfl
      | STATE_READY => exact Or.inr rfl
    · intro hstate
      have h1 := hinv.2.2 hstate
      unfold ProxyConfig.INVALID_ID
      omega

/-- Witness for C13: a service whose configuration was discarded by a reload. -/
theorem config_has_been_initialized_iff_witness :
    config_has_been_initialized
        (run ProxyService.init
          [Step.ResolveProxy "http://a/", Step.OnConfigAvailable ProxyConfigSource.direct,
           Step.ForceReloadProxyConfig]) = false :=
  (config_has_been_initialized_iff
    (run ProxyService.init
      [Step.ResolveProxy "http://a/", Step.OnConfigAvailable ProxyConfigSource.direct,
       Step.ForceReloadProxyConfig])).2.1 (by decide)

end net
